import Mathlib

/-!
Verification of the spreadsheet command-dispatch core (`excel_functions.py`).

The development shallowly embeds the `ExcelHandler` class: dynamic (JSON-shaped)
parameter values become the inductive `PyVal`, the openpyxl worksheet becomes an
explicit grid of cells (`Sheet`), every method of the class becomes a pure Lean
function returning the new sheet together with the `(success, message)` pair the
source returns, and `process_json_operation` becomes `processJsonOperation` over
an explicit envelope type.  Exception paths of the source (openpyxl raising on a
non-integer row passed to `cell()`, on a column index outside the letter table
1..18278, or on a list assigned as a cell value) are modelled as explicit error
branches, since the source catches them and converts them to error results.
-/

/-- A dynamically-typed value as it appears in a parsed JSON envelope or in a
worksheet cell: `pNone` is Python `None` (also the value of an absent cell). -/
inductive PyVal where
  | pNone
  | pBool (b : Bool)
  | pInt (n : Int)
  | pStr (s : String)
  | pList (xs : List PyVal)
deriving Repr

/-- `true` exactly on `pNone` (Python `x is None`). -/
def PyVal.isPNone : PyVal → Bool
  | .pNone => true
  | _ => false

mutual

/-- Python `repr` of a value (strings are quoted). -/
def pyRepr : PyVal → String
  | .pNone => "None"
  | .pBool b => if b then "True" else "False"
  | .pInt n => toString n
  | .pStr s => "'" ++ s ++ "'"
  | .pList xs => "[" ++ pyReprList xs ++ "]"

/-- `repr` of list elements joined with ", " (Python list display). -/
def pyReprList : List PyVal → String
  | [] => ""
  | [x] => pyRepr x
  | x :: xs => pyRepr x ++ ", " ++ pyReprList xs

end

/-- Python `str()` of a value: identity on strings, `repr` otherwise. -/
def pyStr : PyVal → String
  | .pStr s => s
  | v => pyRepr v

mutual

/-- Python `==` between envelope/cell values.  Booleans compare equal to the
integers 0/1 because Python's `bool` is a subclass of `int`. -/
def pyEq : PyVal → PyVal → Bool
  | .pNone, .pNone => true
  | .pStr a, .pStr b => a == b
  | .pInt a, .pInt b => a == b
  | .pInt a, .pBool b => a == (if b then (1 : Int) else 0)
  | .pBool a, .pInt b => (if a then (1 : Int) else 0) == b
  | .pBool a, .pBool b => a == b
  | .pList a, .pList b => pyEqList a b
  | _, _ => false

/-- Elementwise Python `==` on lists. -/
def pyEqList : List PyVal → List PyVal → Bool
  | [], [] => true
  | x :: xs, y :: ys => pyEq x y && pyEqList xs ys
  | _, _ => false

end

/-- Python `str.isdigit` (restricted to ASCII digits): nonempty and all digits. -/
def pyIsDigit (s : String) : Bool :=
  s.length != 0 && s.data.all Char.isDigit

/-- Python `int(s)` for a digit string. -/
def digitsToNat (s : String) : Nat :=
  s.data.foldl (fun a c => a * 10 + (c.toNat - '0'.toNat)) 0

/-- Python `s.startswith(p)`. -/
def pyStartsWith (s p : String) : Bool :=
  p.data.isPrefixOf s.data

/-- `s` begins with the string `p`. -/
def StrBegins (p s : String) : Prop := ∃ t, s = p ++ t

/-- `s` contains the substring `sub`. -/
def StrContains (sub s : String) : Prop := ∃ a b, s = a ++ sub ++ b

/-!  Column letters.  openpyxl's `column_index_from_string` and
`get_column_letter` translate between 1-based indices and bijective base-26
letters, and both raise for anything outside the table `A`..`ZZZ` (1..18278). -/

/-- Largest column index openpyxl can convert to a letter (ZZZ). -/
def maxColLetterIdx : Nat := 18278

/-- Bijective base-26 value of an uppercase letter string (`A`=1 .. `Z`=26,
`AA`=27, ...). -/
def lettersToIdx (u : List Char) : Nat :=
  u.foldl (fun a c => a * 26 + (c.toNat - 'A'.toNat + 1)) 0

/-- ASCII upper-casing of one character (Python `str.upper` on the inputs the
source feeds it). -/
def upperChar (c : Char) : Char :=
  if 'a' ≤ c && c ≤ 'z' then Char.ofNat (c.toNat - 32) else c

/-- openpyxl `column_index_from_string` (after the source upper-cases the
input): defined exactly on 1-to-3-letter alphabetic strings. -/
def colLetterIndex (s : String) : Option Nat :=
  let u := s.data.map upperChar
  if 1 ≤ u.length && u.length ≤ 3 && u.all (fun c => 'A' ≤ c && c ≤ 'Z') then
    some (lettersToIdx u)
  else none

/-- Fueled core of `get_column_letter`. -/
def colLetterAux : Nat → Nat → String → String
  | 0, _, acc => acc
  | _ + 1, 0, acc => acc
  | fuel + 1, n, acc =>
      colLetterAux fuel ((n - 1) / 26)
        (String.singleton (Char.ofNat ('A'.toNat + (n - 1) % 26)) ++ acc)

/-- openpyxl `get_column_letter` on indices 1..18278 (callers guard the range;
the guards model the `ValueError` the source catches). -/
def colLetter (n : Nat) : String := colLetterAux 4 n ""

/-- `_format_cell_reference(row, letter)` as called by the source (the column
argument is always an alphabetic letter string at every call site). -/
def fmtCellRef (rowS letterS : String) : String :=
  "cell at row " ++ rowS ++ ", column " ++ letterS ++
    " (" ++ rowS ++ "," ++ letterS ++ ")"

/-!  The worksheet.  Cells are stored as a list of rows; a row is the list of
its existing cells (an existing cell with value `None` is `pNone`).  This is
value-equivalent to openpyxl's sparse cell map: a cell at column `c` implies
the dimension bound `max_column ≥ c`, reads of non-existing cells yield `None`,
and row/column deletion shifts exactly as `delete_rows`/`delete_cols` do. -/

/-- The worksheet: its title and its grid of existing cells. -/
structure Sheet where
  name : String
  rows : List (List PyVal)
deriving Repr

/-- openpyxl `max_row`: at least 1 even for an empty sheet. -/
def maxRow (s : Sheet) : Nat := max 1 s.rows.length

/-- Largest existing column over a list of rows. -/
def maxColNat (rows : List (List PyVal)) : Nat :=
  rows.foldr (fun r a => max r.length a) 0

/-- openpyxl `max_column`: at least 1 even for an empty sheet. -/
def maxCol (s : Sheet) : Nat := max 1 (maxColNat s.rows)

/-- Value of cell `(r, c)` (1-based); `pNone` when the cell does not exist. -/
def getCell (s : Sheet) (r c : Nat) : PyVal :=
  (s.rows.getD (r - 1) []).getD (c - 1) .pNone

/-- Pad a row with `pNone` cells up to length `n`. -/
def padTo (l : List PyVal) (n : Nat) : List PyVal :=
  l ++ List.replicate (n - l.length) .pNone

/-- Pad the row list with empty rows up to length `n`. -/
def padRows (rows : List (List PyVal)) (n : Nat) : List (List PyVal) :=
  rows ++ List.replicate (n - rows.length) []

/-- Write value `v` at column `c` of a row, extending it as needed. -/
def setInRow (row : List PyVal) (c : Nat) (v : PyVal) : List PyVal :=
  (padTo row c).set (c - 1) v

/-- Write value `v` at cell `(r, c)` (1-based), extending the grid as needed
(`sheet.cell(row=r, column=c).value = v`). -/
def setCell (s : Sheet) (r c : Nat) (v : PyVal) : Sheet :=
  let rows := padRows s.rows r
  { s with rows := rows.set (r - 1) (setInRow (rows.getD (r - 1) []) c v) }

/-- The cells of row `r` as iterated by `sheet[r]`: padded to `max_column`. -/
def rowVals (s : Sheet) (r : Nat) : List PyVal :=
  padTo (s.rows.getD (r - 1) []) (maxCol s)

/-- The cells of column `c` as iterated by `sheet[letter]`: one value per row
from 1 to `max_row`. -/
def colVals (s : Sheet) (c : Nat) : List PyVal :=
  (List.range (maxRow s)).map (fun i => getCell s (i + 1) c)

/-- openpyxl `delete_rows(r)`. -/
def deleteRowAt (s : Sheet) (r : Nat) : Sheet :=
  { s with rows := s.rows.eraseIdx (r - 1) }

/-- openpyxl `delete_cols(c)`. -/
def deleteColAt (s : Sheet) (c : Nat) : Sheet :=
  { s with rows := s.rows.map (fun row => row.eraseIdx (c - 1)) }

/-- openpyxl `insert_rows(r)`: rows at index `r` and below shift down; when no
cell lies at row `r` or below, nothing moves. -/
def insertRowAt (s : Sheet) (r : Nat) : Sheet :=
  if r - 1 ≤ s.rows.length then
    { s with rows := s.rows.insertIdx (r - 1) [] }
  else s

/-!  Helper methods of `ExcelHandler`. -/

/-- `_get_col_index`: positive integer, positive digit-string, or letter label.
Booleans take the integer branch (`isinstance(True, int)` holds in Python);
every other type is rejected.  Returns `none` where the source returns `None`. -/
def getColIndex : PyVal → Option Nat
  | .pInt n => if n ≤ 0 then none else some n.toNat
  | .pBool b => if b then some 1 else none
  | .pStr s =>
      if pyIsDigit s then
        if digitsToNat s = 0 then none else some (digitsToNat s)
      else colLetterIndex s
  | _ => none

/-- `_validate_row_index`: the sentinel `"next_available"`, a positive
digit-string, or a positive integer (booleans count as integers 0/1). -/
def validateRowIndex : PyVal → Bool
  | .pStr s => if s = "next_available" then true else pyIsDigit s && 0 < digitsToNat s
  | .pInt n => 0 < n
  | .pBool b => b
  | _ => false

/-- The digit-string-to-int conversion several methods perform on their row
argument (`if isinstance(row_index, str) and row_index.isdigit(): ... int(...)`). -/
def convertDigitRow : PyVal → PyVal
  | .pStr s => if pyIsDigit s then .pInt (digitsToNat s) else .pStr s
  | v => v

/-- The row index `sheet.cell(row=...)` actually uses: a positive integer or
`True` (= 1); anything else makes openpyxl raise (`none` = the exception path
the source catches). -/
def rowCellTarget : PyVal → Option Nat
  | .pInt n => if 0 < n then some n.toNat else none
  | .pBool b => if b then some 1 else none
  | _ => none

/-- Whether openpyxl accepts a value for `cell.value = ...`: scalars are
accepted, lists raise `ValueError` (`false` = the exception path). -/
def writable : PyVal → Bool
  | .pList _ => false
  | _ => true

/-- Python type name, for the `write_row` non-iterable error message. -/
def typeName : PyVal → String
  | .pNone => "NoneType"
  | .pBool _ => "bool"
  | .pInt _ => "int"
  | .pStr _ => "str"
  | .pList _ => "list"

/-- `", ".join` of `'{val}'` over the non-`None` values of a row
(`clear_row` / `clear_column` reporting). -/
def joinQuoted (l : List PyVal) : String :=
  String.intercalate ", "
    ((l.filter (fun v => !v.isPNone)).map (fun v => "'" ++ pyStr v ++ "'"))

/-!  The operations of `ExcelHandler`.  Each returns what the source method
returns, paired with the (possibly updated) sheet. -/

/-- `clear_sheet`: replace the worksheet with a fresh empty one of the same
name. -/
def clearSheet (s : Sheet) : Sheet × Bool × String :=
  (⟨s.name, []⟩, true,
    "Sheet '" ++ s.name ++ "' cleared. Removed all data (" ++ toString (maxRow s) ++
      " rows by " ++ toString (maxCol s) ++
      " columns). A new empty sheet has been created.")

/-- `_get_actual_row_index` restricted to inputs that passed
`_validate_row_index` (so the result is a usable row number). -/
def actualRowIndex (s : Sheet) : PyVal → Nat
  | .pStr str => if str = "next_available" then maxRow s + 1 else digitsToNat str
  | .pInt n => n.toNat
  | .pBool b => if b then 1 else 0
  | _ => 0

/-- `add_row`: validate the row reference, insert a row there, write `text` to
its first cell.  A list `text` makes openpyxl raise after the insertion, so
that error path leaves the inserted (empty) row behind. -/
def addRow (s : Sheet) (rowIndex text : PyVal) : Sheet × Bool × String :=
  if !validateRowIndex rowIndex then
    (s, false, "Invalid row index: " ++ pyStr rowIndex ++
      ". Row index must be positive integer or 'next_available'.")
  else
    if !writable text then
      (insertRowAt s (actualRowIndex s rowIndex), false,
        "Error adding row: Cannot convert " ++ pyStr text ++ " to Excel")
    else
      (setCell (insertRowAt s (actualRowIndex s rowIndex)) (actualRowIndex s rowIndex) 1 text,
        true,
        "New row inserted at position " ++ toString (actualRowIndex s rowIndex) ++
          ". Text '" ++ pyStr text ++ "' added to " ++
          fmtCellRef (toString (actualRowIndex s rowIndex)) "A")

/-- `write_cell`: convert a digit-string row, validate it, resolve the column,
then write exactly the addressed cell.  The guarded branches are the
exception paths the source catches: a column outside the letter table
(`get_column_letter` raises before the write), a non-integer row reaching
`sheet.cell` (the sentinel passes validation but raises there), and a list
value. -/
def writeCell (s : Sheet) (rowIndex colIndex text : PyVal) : Sheet × Bool × String :=
  if !validateRowIndex (convertDigitRow rowIndex) then
    (s, false, "Invalid row index: " ++ pyStr (convertDigitRow rowIndex) ++
      ". Row index must be positive integer.")
  else
    match getColIndex colIndex with
    | none => (s, false, "Invalid column index: " ++ pyStr colIndex)
    | some c =>
      if maxColLetterIdx < c then
        (s, false, "Error writing to cell: Invalid column index " ++ toString c)
      else
        match rowCellTarget (convertDigitRow rowIndex) with
        | none =>
            (s, false, "Error writing to cell: row must be an integer")
        | some r =>
          if !writable text then
            (s, false, "Error writing to cell: Cannot convert " ++ pyStr text ++ " to Excel")
          else
            (setCell s r c text, true,
              "Value '" ++ pyStr text ++ "' written to " ++
                fmtCellRef (pyStr (convertDigitRow rowIndex)) (colLetter c))

/-- The write loop of `write_row`: values go to columns 1, 2, ...; a list
value makes openpyxl raise mid-loop, leaving the earlier writes in place. -/
def writeRowLoop (s : Sheet) (r : Nat) : List PyVal → Nat → Sheet × Bool
  | [], _ => (s, true)
  | v :: t, i =>
      if writable v then writeRowLoop (setCell s r i v) r t (i + 1)
      else (s, false)

/-- Whether the `write_row`/`read_row` report generator raises: it calls
`get_column_letter(i+1)` for every non-`None` value, which raises beyond
column 18278. -/
def rowSummaryRaises (l : List PyVal) : Bool :=
  l.enum.any (fun p => !p.2.isPNone && maxColLetterIdx < p.1 + 1)

/-- The `write_row` success report: `column L: 'v'` for non-`None` values. -/
def writeRowSummary (l : List PyVal) : String :=
  String.intercalate ", "
    ((l.enum.filter (fun p => !p.2.isPNone)).map
      (fun p => "column " ++ colLetter (p.1 + 1) ++ ": '" ++ pyStr p.2 ++ "'"))

/-- `write_row`: validate the row, reject strings and non-iterables as data,
then write the values to columns 1.. of the row.  A non-integer row index that
passed validation (a digit-string or the sentinel) makes `sheet.cell` raise on
the first iteration — so with an empty data list it "succeeds" untouched. -/
def writeRow (s : Sheet) (rowIndex rowData : PyVal) : Sheet × Bool × String :=
  if !validateRowIndex rowIndex then
    (s, false, "Invalid row index: " ++ pyStr rowIndex ++
      ". Row index must be positive integer.")
  else
    match rowData with
    | .pStr _ => (s, false, "Row data must be an iterable collection, not a string")
    | .pList vs =>
      match vs with
      | [] => (s, true, "Data written to row " ++ pyStr rowIndex ++ ". Values: ")
      | _ =>
        match rowCellTarget rowIndex with
        | none => (s, false, "Error writing row: row must be an integer")
        | some r =>
          if !(writeRowLoop s r vs 1).2 then
            ((writeRowLoop s r vs 1).1, false, "Error writing row: Cannot convert a list to Excel")
          else if rowSummaryRaises vs then
            ((writeRowLoop s r vs 1).1, false, "Error writing row: Invalid column index")
          else
            ((writeRowLoop s r vs 1).1, true, "Data written to row " ++ pyStr rowIndex ++
              ". Values: " ++ writeRowSummary vs)
    | v => (s, false, "Row data must be iterable, got " ++ typeName v)

/-- `clear_cell`: validate, resolve the column, set the cell's value to `None`
(the cell keeps existing).  The row is not digit-converted first, so a
digit-string row raises at `sheet.cell` (error path). -/
def clearCell (s : Sheet) (rowIndex colIndex : PyVal) : Sheet × Bool × String :=
  if !validateRowIndex rowIndex then
    (s, false, "Invalid row index: " ++ pyStr rowIndex ++
      ". Row index must be positive integer.")
  else
    match getColIndex colIndex with
    | none => (s, false, "Invalid column index: " ++ pyStr colIndex)
    | some c =>
      if maxColLetterIdx < c then
        (s, false, "Error clearing cell: Invalid column index " ++ toString c)
      else
        match rowCellTarget rowIndex with
        | none => (s, false, "Error clearing cell: row must be an integer")
        | some r =>
          (setCell s r c .pNone, true,
            "Content cleared from " ++ fmtCellRef (pyStr rowIndex) (colLetter c))

/-- `read_row`: validate and digit-convert the row; a row beyond `max_row`
reads as the empty list with a warning; otherwise the row's cells padded to
`max_column`.  The sentinel reaches the `row > max_row` comparison as a string
and raises (error path). -/
def readRow (s : Sheet) (rowIndex : PyVal) : Option (List PyVal) × String :=
  if !validateRowIndex rowIndex then
    (none, "Invalid row index: " ++ pyStr rowIndex ++
      ". Row index must be positive integer.")
  else
    match rowCellTarget (convertDigitRow rowIndex) with
    | none => (none, "Error reading row: row must be an integer")
    | some r =>
      if maxRow s < r then
        (some [], "Row " ++ pyStr (convertDigitRow rowIndex) ++ " does not exist")
      else
        (some (rowVals s r), "Row " ++ pyStr (convertDigitRow rowIndex) ++ " read successfully")

/-- `clear_row`: validate and digit-convert the row, read it for reporting,
then `delete_rows` — subsequent rows shift up by one.  The sentinel passes
validation but raises at `delete_rows` (error path, sheet unchanged). -/
def clearRow (s : Sheet) (rowIndex : PyVal) : Sheet × Bool × String :=
  if !validateRowIndex rowIndex then
    (s, false, "Invalid row index: " ++ pyStr rowIndex ++
      ". Row index must be positive integer.")
  else
    match (readRow s (convertDigitRow rowIndex)).1 with
    | none => (s, false, "Error clearing row: 'NoneType' object is not iterable")
    | some origRow =>
      match rowCellTarget (convertDigitRow rowIndex) with
      | none => (s, false, "Error clearing row: row must be an integer")
      | some r =>
        (deleteRowAt s r, true,
          "Row " ++ pyStr (convertDigitRow rowIndex) ++ " deleted. Original values: " ++
            joinQuoted origRow)

/-- `read_column`: resolve the column; reading iterates rows 1..`max_row` of
that column.  A resolved index beyond the letter table raises at
`get_column_letter` (error path). -/
def readColumn (s : Sheet) (colIndex : PyVal) : Option (List PyVal) × String :=
  match getColIndex colIndex with
  | none => (none, "Invalid column index: " ++ pyStr colIndex)
  | some c =>
    if maxRow s < 1 then
      (some [], "Sheet is empty, no column to read")
    else if maxColLetterIdx < c then
      (none, "Error reading column: Invalid column index " ++ toString c)
    else
      (some (colVals s c), "Column " ++ pyStr colIndex ++ " read successfully")

/-- `clear_column`: resolve the column, read it for reporting, then
`delete_cols` — subsequent columns shift left by one. -/
def clearColumn (s : Sheet) (colIndex : PyVal) : Sheet × Bool × String :=
  match getColIndex colIndex with
  | none => (s, false, "Invalid column index: " ++ pyStr colIndex)
  | some c =>
    if maxColLetterIdx < c then
      (s, false, "Error clearing column: Invalid column index " ++ toString c)
    else
      (deleteColAt s c, true,
        "Column " ++ colLetter c ++ " (index " ++ toString c ++
          ") deleted. Original values: " ++ joinQuoted ((readColumn s colIndex).1.getD []))

/-- `read_cell`: validate the row (digit-strings pass validation but are not
converted, so they raise at `sheet.cell` — error path), resolve the column,
and read the cell's value; the first component is `pNone` both for an absent
value and on every error path, exactly as the source returns `None`. -/
def readCell (s : Sheet) (rowIndex colIndex : PyVal) : PyVal × String :=
  if !validateRowIndex rowIndex then
    (.pNone, "Invalid row index: " ++ pyStr rowIndex ++
      ". Row index must be positive integer.")
  else
    match getColIndex colIndex with
    | none => (.pNone, "Invalid column index: " ++ pyStr colIndex)
    | some c =>
      if maxColLetterIdx < c then
        (.pNone, "Error reading cell: Invalid column index " ++ toString c)
      else
        match rowCellTarget rowIndex with
        | none => (.pNone, "Error reading cell: row must be an integer")
        | some r =>
          (getCell s r c, "Value '" ++ pyStr (getCell s r c) ++ "' read from " ++
            fmtCellRef (pyStr rowIndex) (colLetter c))

/-- `read_header_row`: the cells of row 1 (padded to `max_column`); the
empty-sheet branch of the source is kept although `max_row ≥ 1` always. -/
def readHeaderRow (s : Sheet) : Option (List PyVal) × String :=
  if maxRow s < 1 then
    (some [], "Sheet is empty, no header row to read")
  else
    (some (rowVals s 1), "Header row read successfully")

/-- The scan of `get_column_index_by_header`: first (1-based) position whose
cell compares `==` to the requested header. -/
def findHeaderIdx : List PyVal → PyVal → Nat → Option Nat
  | [], _, _ => none
  | h :: t, x, i => if pyEq h x then some i else findHeaderIdx t x (i + 1)

/-- `get_column_index_by_header`: linear scan of the header row for an exact
(`==`) match; first match wins. -/
def getColumnIndexByHeader (s : Sheet) (headerName : PyVal) : Option Nat × String :=
  match (readHeaderRow s).1 with
  | none => (none, "Error finding column index")
  | some l =>
    if l.isEmpty then (none, "No header row found")
    else
      match findHeaderIdx l headerName 1 with
      | some i => (some i, "Column index found by header: " ++ pyStr headerName)
      | none => (none, "Header '" ++ pyStr headerName ++ "' not found")

/-- One comparison step of `get_row_index_by_value`: `None` cells are skipped,
other cells match when their `str()` equals the target string. -/
def matchCell (tgt : String) : PyVal → Bool
  | .pNone => false
  | v => pyStr v == tgt

/-- The scan of `get_row_index_by_value`: first (1-based) position whose cell
matches. -/
def findValueIdx : List PyVal → String → Nat → Option Nat
  | [], _, _ => none
  | v :: t, tgt, i => if matchCell tgt v then some i else findValueIdx t tgt (i + 1)

/-- `get_row_index_by_value`: resolve the column (the source's falsy test also
covers an impossible zero index), read it, and scan for the first cell whose
string representation equals `str(search_value)`. -/
def getRowIndexByValue (s : Sheet) (colIndex searchValue : PyVal) : Option Nat × String :=
  match getColIndex colIndex with
  | none => (none, "Invalid column index: " ++ pyStr colIndex)
  | some c =>
    if c = 0 then (none, "Invalid column index: " ++ pyStr colIndex)
    else
      match (readColumn s colIndex).1 with
      | none => (none, "No data found in column " ++ pyStr colIndex)
      | some data =>
        if data.isEmpty then (none, "No data found in column " ++ pyStr colIndex)
        else
          match findValueIdx data (pyStr searchValue) 1 with
          | some r =>
              (some r, "Row index found: " ++ toString r ++ " with value '" ++
                pyStr searchValue ++ "' in column " ++ pyStr colIndex)
          | none =>
              (none, "Value '" ++ pyStr searchValue ++ "' not found in column " ++
                pyStr colIndex)

/-- `update_cell_by_lookup`: the four-step pipeline — resolve the row-key
column by header, resolve the target column by header, resolve the row by
value in the row-key column, then write.  Each step short-circuits with a
failure message (the source's falsy tests also cover impossible zero
indices). -/
def updateCellByLookup (s : Sheet) (rowHeader rowValue colHeader newValue : PyVal) :
    Sheet × Bool × String :=
  match (getColumnIndexByHeader s rowHeader).1 with
  | none =>
      (s, false, "Could not find column with header '" ++ pyStr rowHeader ++ "': " ++
        (getColumnIndexByHeader s rowHeader).2)
  | some rc =>
    if rc = 0 then
      (s, false, "Could not find column with header '" ++ pyStr rowHeader ++ "': " ++
        (getColumnIndexByHeader s rowHeader).2)
    else
      match (getColumnIndexByHeader s colHeader).1 with
      | none =>
          (s, false, "Could not find column with header '" ++ pyStr colHeader ++ "': " ++
            (getColumnIndexByHeader s colHeader).2)
      | some tc =>
        if tc = 0 then
          (s, false, "Could not find column with header '" ++ pyStr colHeader ++ "': " ++
            (getColumnIndexByHeader s colHeader).2)
        else
          match (getRowIndexByValue s (.pInt rc) rowValue).1 with
          | none =>
              (s, false, "Could not find row with value '" ++ pyStr rowValue ++
                "' in column '" ++ pyStr rowHeader ++ "': " ++
                (getRowIndexByValue s (.pInt rc) rowValue).2)
          | some r =>
            if r = 0 then
              (s, false, "Could not find row with value '" ++ pyStr rowValue ++
                "' in column '" ++ pyStr rowHeader ++ "': " ++
                (getRowIndexByValue s (.pInt rc) rowValue).2)
            else
              if !(writeCell s (.pInt r) (.pInt tc) newValue).2.1 then
                ((writeCell s (.pInt r) (.pInt tc) newValue).1, false,
                  "Failed to write to cell at row " ++ toString r ++
                  ", column " ++ toString tc ++ ": " ++
                  (writeCell s (.pInt r) (.pInt tc) newValue).2.2)
              else
                ((writeCell s (.pInt r) (.pInt tc) newValue).1, true,
                  "Successfully updated cell at row " ++ toString r ++
                  ", column " ++ colLetter tc ++ " (identified by '" ++ pyStr rowHeader ++
                  "=" ++ pyStr rowValue ++ "' and '" ++ pyStr colHeader ++
                  "') with value '" ++ pyStr newValue ++ "'")


/-!  The JSON operation dispatcher (`process_json_operation`). -/

/-- The `parameters` object of an envelope. -/
def Params := List (String × PyVal)

/-- `key in parameters` / `parameters[key]` (first binding wins). -/
def lookupParam (ps : Params) (k : String) : Option PyVal :=
  match ps with
  | [] => none
  | (k', v) :: t => if k' = k then some v else lookupParam t k

/-- `parameters[key]` in a context where presence has been validated. -/
def getP (ps : Params) (k : String) : PyVal :=
  (lookupParam ps k).getD .pNone

/-- `_validate_parameters`: every required key is present. -/
def hasParams (ps : Params) (req : List String) : Bool :=
  req.all (fun k => (lookupParam ps k).isSome)

/-- Outcome of one dispatcher branch before the final reward packaging:
`early` is a direct `return -1, "Error: ..."` (sheet untouched), `raised` is a
Python exception reaching the dispatcher's outermost handler (sheet untouched —
every such raise happens in read-only dispatcher code), `done` falls through to
the reward calculation with the branch's `(success, message)`. -/
inductive HOut where
  | early (msg : String)
  | raised (msg : String)
  | done (s' : Sheet) (ok : Bool) (msg : String)

/-- The `excel_clear_sheet` branch. -/
def hClearSheet (s : Sheet) : HOut :=
  .done (clearSheet s).1 (clearSheet s).2.1 (clearSheet s).2.2

/-- The extra `row_index` validation of the `excel_add_row` branch. -/
def addRowIndexOk : PyVal → Bool
  | .pStr str => str = "next_available" || (pyIsDigit str && 0 < digitsToNat str)
  | .pInt n => 0 < n
  | .pBool b => b
  | _ => false

/-- The `excel_add_row` branch. -/
def hAddRow (s : Sheet) (ps : Params) : HOut :=
  if !hasParams ps ["row_index", "text"] then
    .early "Missing required parameters for add_row. Needs: row_index, text"
  else
    if !addRowIndexOk (getP ps "row_index") then
      .early ("Invalid row_index: " ++ pyStr (getP ps "row_index") ++
        ". Must be positive integer or 'next_available'")
    else
      .done (addRow s (getP ps "row_index") (getP ps "text")).1
        (addRow s (getP ps "row_index") (getP ps "text")).2.1
        (addRow s (getP ps "row_index") (getP ps "text")).2.2

/-- The extra `row_index` validation of the `excel_write_cell` branch: a
positive integer (booleans included) or a positive digit-string. -/
def writeCellRowOk : PyVal → Bool
  | .pInt n => 0 < n
  | .pBool b => b
  | .pStr str => pyIsDigit str && 0 < digitsToNat str
  | _ => false

/-- The extra `col_index` validation of the `excel_write_cell` branch: for a
string, a digit-string or at most 3 alphabetic characters; otherwise a
positive integer (booleans included). -/
def writeCellColOk : PyVal → Bool
  | .pStr str => pyIsDigit str || (str.data.length ≤ 3 && str.data.all Char.isAlpha)
  | .pInt n => 0 < n
  | .pBool b => b
  | _ => false

/-- The `excel_write_cell` branch. -/
def hWriteCell (s : Sheet) (ps : Params) : HOut :=
  if !hasParams ps ["row_index", "col_index", "text"] then
    .early "Missing required parameters for write_cell. Needs: row_index, col_index, text"
  else
    if !writeCellRowOk (getP ps "row_index") then
      .early ("Invalid row_index: " ++ pyStr (getP ps "row_index") ++
        ". Must be positive integer")
    else if !writeCellColOk (getP ps "col_index") then
      .early (match getP ps "col_index" with
        | .pStr str => "Invalid col_index: " ++ str ++
            ". Must be a column letter (A-Z) or positive integer"
        | v => "Invalid col_index: " ++ pyStr v ++
            ". Must be positive integer or column letter")
    else
      .done (writeCell s (convertDigitRow (getP ps "row_index")) (getP ps "col_index")
          (getP ps "text")).1
        (writeCell s (convertDigitRow (getP ps "row_index")) (getP ps "col_index")
          (getP ps "text")).2.1
        (writeCell s (convertDigitRow (getP ps "row_index")) (getP ps "col_index")
          (getP ps "text")).2.2

/-- Whether `iter(x)` succeeds in Python: lists and strings are iterable. -/
def iterableOk : PyVal → Bool
  | .pList _ => true
  | .pStr _ => true
  | _ => false

/-- The `excel_write_row` branch. -/
def hWriteRow (s : Sheet) (ps : Params) : HOut :=
  if !hasParams ps ["row_index", "row_data"] then
    .early "Missing required parameters for write_row. Needs: row_index, row_data"
  else
    if !iterableOk (getP ps "row_data") then
      .early ("Invalid row_data: " ++ pyStr (getP ps "row_data") ++
        ". Must be iterable (list, tuple, etc.)")
    else
      .done (writeRow s (getP ps "row_index") (getP ps "row_data")).1
        (writeRow s (getP ps "row_index") (getP ps "row_data")).2.1
        (writeRow s (getP ps "row_index") (getP ps "row_data")).2.2

/-- The `excel_clear_cell` branch. -/
def hClearCell (s : Sheet) (ps : Params) : HOut :=
  if !hasParams ps ["row_index", "col_index"] then
    .early "Missing required parameters for clear_cell. Needs: row_index, col_index"
  else
    .done (clearCell s (getP ps "row_index") (getP ps "col_index")).1
      (clearCell s (getP ps "row_index") (getP ps "col_index")).2.1
      (clearCell s (getP ps "row_index") (getP ps "col_index")).2.2

/-- The `excel_clear_row` branch. -/
def hClearRow (s : Sheet) (ps : Params) : HOut :=
  if !hasParams ps ["row_index"] then
    .early "Missing required parameters for clear_row. Needs: row_index"
  else
    .done (clearRow s (getP ps "row_index")).1 (clearRow s (getP ps "row_index")).2.1
      (clearRow s (getP ps "row_index")).2.2

/-- The `excel_clear_column` branch. -/
def hClearColumn (s : Sheet) (ps : Params) : HOut :=
  if !hasParams ps ["col_index"] then
    .early "Missing required parameters for clear_column. Needs: col_index"
  else
    .done (clearColumn s (getP ps "col_index")).1 (clearColumn s (getP ps "col_index")).2.1
      (clearColumn s (getP ps "col_index")).2.2

/-- `", ".join` of `'{h}'` over all header cells (no `None` filtering here). -/
def joinQuotedAll (l : List PyVal) : String :=
  String.intercalate ", " (l.map (fun v => "'" ++ pyStr v ++ "'"))

/-- The `excel_read_header_row` branch. -/
def hReadHeaderRow (s : Sheet) : HOut :=
  match (readHeaderRow s).1 with
  | some l =>
      .done s true
        ("Success: Header row read successfully. Headers found: " ++ joinQuotedAll l)
  | none => .done s false (readHeaderRow s).2

/-- The cosmetic column identifier computed by the `excel_read_column` branch
before reading; for an integer argument it calls `get_column_letter` directly,
which raises outside 1..18278 (the `raised` outcome). -/
def readColumnColId : PyVal → Option String
  | .pInt n =>
      if 1 ≤ n ∧ n.toNat ≤ maxColLetterIdx then
        some ("column " ++ toString n ++ " (" ++ colLetter n.toNat ++ ")")
      else none
  | .pBool b =>
      if b then some "column True (A)" else none
  | v => some ("column " ++ pyStr v)

/-- The `excel_read_column` summary: `row N: 'v'` over non-`None` values. -/
def colSummary (l : List PyVal) : String :=
  String.intercalate ", "
    ((l.enum.filter (fun p => !p.2.isPNone)).map
      (fun p => "row " ++ toString (p.1 + 1) ++ ": '" ++ pyStr p.2 ++ "'"))

/-- The `excel_read_column` branch. -/
def hReadColumn (s : Sheet) (ps : Params) : HOut :=
  if !hasParams ps ["col_index"] then
    .early "Missing required parameters for read_column. Needs: col_index"
  else
    match readColumnColId (getP ps "col_index") with
    | none => .raised "Error processing JSON operation: Invalid column index"
    | some colId =>
      match (readColumn s (getP ps "col_index")).1 with
      | some l =>
          .done s true ("Success: " ++ colId ++ " read successfully. Values: " ++ colSummary l)
      | none => .done s false (readColumn s (getP ps "col_index")).2

/-- The `excel_read_cell` branch: success when the value is non-`None` or the
message begins with `"Value"` (how an absent value still counts as success). -/
def hReadCell (s : Sheet) (ps : Params) : HOut :=
  if !hasParams ps ["row_index", "col_index"] then
    .early "Missing required parameters for read_cell. Needs: row_index, col_index"
  else
    if !(readCell s (getP ps "row_index") (getP ps "col_index")).1.isPNone ||
        pyStartsWith (readCell s (getP ps "row_index") (getP ps "col_index")).2 "Value" then
      match getColIndex (getP ps "col_index") with
      | some c =>
          if maxColLetterIdx < c then
            .raised "Error processing JSON operation: Invalid column index"
          else
            .done s true ("Success: Read value '" ++
              pyStr (readCell s (getP ps "row_index") (getP ps "col_index")).1 ++ "' from " ++
              fmtCellRef (pyStr (getP ps "row_index")) (colLetter c))
      | none =>
          .done s true ("Success: Cell read successfully. Result: " ++
            pyStr (readCell s (getP ps "row_index") (getP ps "col_index")).1)
    else .done s false (readCell s (getP ps "row_index") (getP ps "col_index")).2

/-- The `excel_read_row` summary: `column L: 'v'` over non-`None` values
(`get_column_letter` raises past column 18278, the `raised` outcome). -/
def hReadRow (s : Sheet) (ps : Params) : HOut :=
  if !hasParams ps ["row_index"] then
    .early "Missing required parameters for read_row. Needs: row_index"
  else
    match (readRow s (getP ps "row_index")).1 with
    | some l =>
        if rowSummaryRaises l then
          .raised "Error processing JSON operation: Invalid column index"
        else
          .done s true ("Success: Row " ++ pyStr (getP ps "row_index") ++
            " read successfully. Values: " ++ writeRowSummary l)
    | none => .done s false (readRow s (getP ps "row_index")).2

/-- The `excel_get_column_index_by_header` branch. -/
def hGetColumnIndexByHeader (s : Sheet) (ps : Params) : HOut :=
  if !hasParams ps ["header_name"] then
    .early "Missing required parameters for get_column_index_by_header. Needs: header_name"
  else
    match (getColumnIndexByHeader s (getP ps "header_name")).1 with
    | some i => .done s true ("Success: Column index found by header. Result: " ++ toString i)
    | none => .done s false (getColumnIndexByHeader s (getP ps "header_name")).2

/-- The `excel_get_row_index_by_value` branch. -/
def hGetRowIndexByValue (s : Sheet) (ps : Params) : HOut :=
  if !hasParams ps ["col_index", "search_value"] then
    .early "Missing required parameters for get_row_index_by_value. Needs: col_index, search_value"
  else
    match (getRowIndexByValue s (getP ps "col_index") (getP ps "search_value")).1 with
    | some r => .done s true ("Success: Row index found by value. Result: " ++ toString r)
    | none => .done s false (getRowIndexByValue s (getP ps "col_index") (getP ps "search_value")).2

/-- The `excel_update_cell_by_lookup` branch. -/
def hUpdateCellByLookup (s : Sheet) (ps : Params) : HOut :=
  if !hasParams ps ["row_header", "row_value", "col_header", "new_value"] then
    .early "Missing required parameters for update_cell_by_lookup. Needs: row_header, row_value, col_header, new_value"
  else
    if (updateCellByLookup s (getP ps "row_header") (getP ps "row_value")
        (getP ps "col_header") (getP ps "new_value")).2.1 then
      .done (updateCellByLookup s (getP ps "row_header") (getP ps "row_value")
          (getP ps "col_header") (getP ps "new_value")).1 true
        ("Success: Cell updated successfully. " ++
          (updateCellByLookup s (getP ps "row_header") (getP ps "row_value")
            (getP ps "col_header") (getP ps "new_value")).2.2)
    else
      .done (updateCellByLookup s (getP ps "row_header") (getP ps "row_value")
          (getP ps "col_header") (getP ps "new_value")).1 false
        (updateCellByLookup s (getP ps "row_header") (getP ps "row_value")
          (getP ps "col_header") (getP ps "new_value")).2.2

/-- The `elif` chain on a string `function_name`. -/
def dispatchByName (s : Sheet) (name : String) (ps : Params) : HOut :=
  if name = "excel_clear_sheet" then hClearSheet s
  else if name = "excel_add_row" then hAddRow s ps
  else if name = "excel_write_cell" then hWriteCell s ps
  else if name = "excel_write_row" then hWriteRow s ps
  else if name = "excel_clear_cell" then hClearCell s ps
  else if name = "excel_clear_row" then hClearRow s ps
  else if name = "excel_clear_column" then hClearColumn s ps
  else if name = "excel_read_header_row" then hReadHeaderRow s
  else if name = "excel_read_column" then hReadColumn s ps
  else if name = "excel_read_cell" then hReadCell s ps
  else if name = "excel_read_row" then hReadRow s ps
  else if name = "excel_get_column_index_by_header" then hGetColumnIndexByHeader s ps
  else if name = "excel_get_row_index_by_value" then hGetRowIndexByValue s ps
  else if name = "excel_update_cell_by_lookup" then hUpdateCellByLookup s ps
  else .early ("Unknown function: " ++ name)

/-- Dispatch on the `function_name` value: a non-string value compares unequal
to every branch name, so it is an unknown function. -/
def dispatch (s : Sheet) (fn : PyVal) (ps : Params) : HOut :=
  match fn with
  | .pStr name => dispatchByName s name ps
  | v => .early ("Unknown function: " ++ pyStr v)

/-- The reward calculation and feedback formatting at the end of
`process_json_operation`: reward 1 on success (prefixing `"Success: "` unless
the message already starts with `"Success"`), reward -1 otherwise. -/
def packageResult (s' : Sheet) (success : Bool) (message : String) : Sheet × Int × String :=
  if success then
    if pyStartsWith message "Success" then (s', 1, message)
    else (s', 1, "Success: " ++ message)
  else (s', -1, "Error: " ++ message)

/-- A parsed envelope object: each field is `none` when the key is absent
(`parameters` then defaults to the empty object). -/
structure OpEnvelope where
  functionName : Option PyVal
  parameters : Option Params

/-- The dispatcher's input: unparsable JSON, or a parsed envelope object. -/
inductive Envelope where
  | malformed
  | parsed (op : OpEnvelope)

/-- `process_json_operation`: returns the updated sheet with the
`(reward, feedback)` pair. -/
def processJsonOperation (s : Sheet) (env : Envelope) : Sheet × Int × String :=
  match env with
  | .malformed => (s, -1, "Error: Invalid JSON format")
  | .parsed op =>
    match op.functionName with
    | none => (s, -1, "Error: JSON missing 'function_name' field")
    | some fn =>
      match dispatch s fn (op.parameters.getD []) with
      | .early m => (s, -1, "Error: " ++ m)
      | .raised m => (s, -1, "Error: " ++ m)
      | .done s1 ok m => packageResult s1 ok m

/-!  Concrete tables used to instantiate the theorems. -/

/-- A table with headers `Name`/`Status` and one data row `Alpha`/`Pending`. -/
def demoTable : Sheet :=
  ⟨"Sheet", [[.pStr "Name", .pStr "Status"], [.pStr "Alpha", .pStr "Pending"]]⟩

/-- A table whose first column holds an empty (`None`) cell above a string. -/
def demoNoneSheet : Sheet := ⟨"Sheet", [[.pNone], [.pStr "x"]]⟩

/-- A table whose first column holds the number 50000 under a header. -/
def demoValueSheet : Sheet := ⟨"Sheet", [[.pStr "ID"], [.pInt 50000]]⟩

/-- A three-row single-column table. -/
def demoRows : Sheet := ⟨"Sheet", [[.pStr "a"], [.pStr "b"], [.pStr "c"]]⟩

/-!  List and string lemmas. -/

theorem strData_append (a b : String) : (a ++ b).data = a.data ++ b.data := rfl

theorem getD_replicate {α : Type} (n j : Nat) (d : α) :
    (List.replicate n d).getD j d = d := by
  induction n generalizing j with
  | zero => simp [List.getD]
  | succ k ih =>
    cases j with
    | zero => simp [List.replicate]
    | succ m =>
        rw [List.replicate, show ((d :: List.replicate k d).getD (m + 1) d) =
          (List.replicate k d).getD m d from rfl]
        exact ih m

theorem getD_append_replicate {α : Type} (l : List α) (n j : Nat) (d : α) :
    (l ++ List.replicate n d).getD j d = l.getD j d := by
  induction l generalizing j with
  | nil =>
      rw [List.nil_append, getD_replicate]
      cases j <;> rfl
  | cons x t ih =>
    cases j with
    | zero => simp [List.getD]
    | succ m => simpa [List.getD] using ih m

theorem getD_eraseIdx {α : Type} (l : List α) (i j : Nat) (d : α) :
    (l.eraseIdx i).getD j d = if j < i then l.getD j d else l.getD (j + 1) d := by
  induction l generalizing i j with
  | nil => simp [List.eraseIdx]
  | cons x t ih =>
    cases i with
    | zero => simp [List.eraseIdx, List.getD]
    | succ k =>
      cases j with
      | zero => simp [List.eraseIdx, List.getD]
      | succ m =>
        simpa [List.eraseIdx, List.getD, Nat.succ_lt_succ_iff] using ih k m

theorem isPrefixOf_append_of_le {α : Type} [BEq α] (p l r : List α)
    (h : p.length ≤ l.length) : (p.isPrefixOf (l ++ r)) = p.isPrefixOf l := by
  induction p generalizing l with
  | nil => simp [List.isPrefixOf]
  | cons a as ih =>
    cases l with
    | nil => simp at h
    | cons b bs =>
      simp only [List.cons_append, List.isPrefixOf, List.append_eq]
      rw [ih bs (by simpa using h)]

theorem padTo_getD (l : List PyVal) (n j : Nat) :
    (padTo l n).getD j .pNone = l.getD j .pNone :=
  getD_append_replicate l (n - l.length) j .pNone

theorem padRows_getD (rows : List (List PyVal)) (n i : Nat) :
    (padRows rows n).getD i [] = rows.getD i [] :=
  getD_append_replicate rows (n - rows.length) i []

theorem padTo_length (l : List PyVal) (n : Nat) : (padTo l n).length = max l.length n := by
  simp [padTo]; omega

theorem padRows_length (rows : List (List PyVal)) (n : Nat) :
    (padRows rows n).length = max rows.length n := by
  simp [padRows]; omega

theorem listGetD_def {α : Type} (l : List α) (n : Nat) (d : α) :
    l.getD n d = (l.get? n).getD d := rfl

theorem get?_set_self {α : Type} :
    ∀ (l : List α) (i : Nat) (v : α), i < l.length → (l.set i v).get? i = some v
  | [], _, _, h => by simp at h
  | _ :: _, 0, _, _ => rfl
  | _ :: t, i + 1, v, h => by
      simpa using get?_set_self t i v (by simpa using h)

theorem get?_set_ne {α : Type} :
    ∀ (l : List α) (i j : Nat) (v : α), i ≠ j → (l.set i v).get? j = l.get? j
  | [], _, _, _, _ => rfl
  | _ :: _, 0, 0, _, h => absurd rfl h
  | _ :: _, 0, _ + 1, _, _ => rfl
  | _ :: _, _ + 1, 0, _, _ => rfl
  | _ :: t, i + 1, j + 1, v, h => by
      simpa using get?_set_ne t i j v (by omega)

theorem getD_set_self {α : Type} (l : List α) (i : Nat) (v d : α) (h : i < l.length) :
    (l.set i v).getD i d = v := by
  rw [listGetD_def, get?_set_self _ _ _ h]; rfl

theorem getD_set_ne {α : Type} (l : List α) (i j : Nat) (v d : α) (h : i ≠ j) :
    (l.set i v).getD j d = l.getD j d := by
  rw [listGetD_def, get?_set_ne _ _ _ _ h, ← listGetD_def]

theorem getD_length_le_maxColNat :
    ∀ (rows : List (List PyVal)) (i : Nat), (rows.getD i []).length ≤ maxColNat rows
  | [], i => by simp [List.getD]
  | r :: t, 0 => by
      have e2 : maxColNat (r :: t) = max r.length (maxColNat t) := rfl
      have e1 : ((r :: t).getD 0 []) = r := rfl
      rw [e1, e2]; omega
  | r :: t, i + 1 => by
      have h := getD_length_le_maxColNat t i
      have e1 : ((r :: t).getD (i + 1) []) = t.getD i [] := rfl
      have e2 : maxColNat (r :: t) = max r.length (maxColNat t) := rfl
      rw [e1, e2]; omega

theorem rowVals_length (s : Sheet) (r : Nat) : (rowVals s r).length = maxCol s := by
  have h1 := getD_length_le_maxColNat s.rows (r - 1)
  have h2 : maxColNat s.rows ≤ maxCol s := le_max_right _ _
  simp only [rowVals, padTo_length]
  omega

theorem colVals_length (s : Sheet) (c : Nat) : (colVals s c).length = maxRow s := by
  simp [colVals]

theorem maxRow_pos (s : Sheet) : 1 ≤ maxRow s := le_max_left _ _

theorem maxCol_pos (s : Sheet) : 1 ≤ maxCol s := le_max_left _ _

theorem rowVals_getD (s : Sheet) (r c : Nat) :
    (rowVals s r).getD (c - 1) .pNone = getCell s r c :=
  padTo_getD (s.rows.getD (r - 1) []) (maxCol s) (c - 1)

theorem getCell_setCell_self (s : Sheet) (r c : Nat) (v : PyVal)
    (hr : 1 ≤ r) (hc : 1 ≤ c) : getCell (setCell s r c v) r c = v := by
  simp only [getCell, setCell, setInRow]
  rw [getD_set_self _ _ _ _ (by rw [padRows_length]; omega)]
  rw [getD_set_self _ _ _ _ (by rw [padTo_length]; omega)]

theorem getCell_setCell_ne (s : Sheet) (r c r' c' : Nat) (v : PyVal)
    (hr' : 1 ≤ r') (hc' : 1 ≤ c') (hne : (r', c') ≠ (r, c))
    (hr : 1 ≤ r) (hc : 1 ≤ c) :
    getCell (setCell s r c v) r' c' = getCell s r' c' := by
  simp only [getCell, setCell, setInRow]
  by_cases hrow : r' = r
  · subst hrow
    have hcc : c' ≠ c := by
      intro h
      exact hne (by rw [h])
    have hcne : c - 1 ≠ c' - 1 := by omega
    rw [getD_set_self _ _ _ _ (by rw [padRows_length]; omega)]
    rw [getD_set_ne _ _ _ _ _ hcne, padTo_getD, padRows_getD]
  · have hrne : r - 1 ≠ r' - 1 := by omega
    rw [getD_set_ne _ _ _ _ _ hrne, padRows_getD]

/-!  Feedback-format lemmas: every dispatcher feedback string begins with
`"Success:"` exactly on reward 1 and with `"Error:"` exactly on reward -1. -/

/-- A success message reaching the dispatcher's reward packaging either is
already fully `"Success: "`-formatted or does not start with `"Success"` at
all (so the packaging adds the marker). -/
def successMsgOK (m : String) : Prop :=
  StrBegins "Success: " m ∨ pyStartsWith m "Success" = false

theorem strBegins_disjoint (x : String) :
    StrBegins "Success:" x → StrBegins "Error:" x → False := by
  rintro ⟨t, rfl⟩ ⟨u, hu⟩
  have h : (("Success:" ++ t).data.head?) = (("Error:" ++ u).data.head?) :=
    congrArg (fun s => s.data.head?) hu
  have h2 : (some 'S' : Option Char) = some 'E' := h
  simp at h2

theorem pyStartsWith_of_strBegins (m t : String) (h : m = "Success: " ++ t) :
    pyStartsWith m "Success" = true := by
  subst h
  show ("Success".data.isPrefixOf (("Success: " ++ t).data)) = true
  rw [strData_append]
  rw [isPrefixOf_append_of_le _ _ _ (by decide)]
  decide

theorem pyStartsWith_success_false (lit m : String) (r : List Char)
    (hd : m.data = lit.data ++ r)
    (hlit : ("Success".data.isPrefixOf lit.data) = false)
    (hlen : 7 ≤ lit.data.length) : pyStartsWith m "Success" = false := by
  show ("Success".data.isPrefixOf m.data) = false
  rw [hd, isPrefixOf_append_of_le _ _ _ (by
    have : "Success".data.length = 7 := by decide
    omega)]
  exact hlit

theorem pyStartsWith_success_false_head (m : String) (c : Char) (r : List Char)
    (hd : m.data = c :: r) (hc : ('S' == c) = false) :
    pyStartsWith m "Success" = false := by
  show ("Success".data.isPrefixOf m.data) = false
  rw [hd, show "Success".data = 'S' :: "uccess".data from rfl]
  show (('S' == c) && ("uccess".data.isPrefixOf r)) = false
  rw [hc]
  rfl

/-- The statement of the reward/feedback contract for one dispatcher result. -/
def RewardFeedbackOK (out : Sheet × Int × String) : Prop :=
  (out.2.1 = 1 ∨ out.2.1 = -1) ∧
  (out.2.1 = 1 ↔ StrBegins "Success:" out.2.2) ∧
  (out.2.1 = -1 ↔ StrBegins "Error:" out.2.2)

theorem rewardFeedbackOK_error (s : Sheet) (m : String) :
    RewardFeedbackOK (s, -1, "Error: " ++ m) := by
  have hb : StrBegins "Error:" ("Error: " ++ m) := ⟨" " ++ m, rfl⟩
  refine ⟨Or.inr rfl, ⟨fun h => ?_, fun h => ?_⟩, ⟨fun _ => hb, fun _ => rfl⟩⟩
  · have h' : (-1 : Int) = 1 := h
    exact absurd h' (by decide)
  · exact (strBegins_disjoint _ h hb).elim

theorem rewardFeedbackOK_success (s : Sheet) (m : String) (h : StrBegins "Success:" m) :
    RewardFeedbackOK (s, 1, m) := by
  refine ⟨Or.inl rfl, ⟨fun _ => h, fun _ => rfl⟩, ⟨fun hh => ?_, fun hh => ?_⟩⟩
  · have h' : (1 : Int) = -1 := hh
    exact absurd h' (by decide)
  · exact (strBegins_disjoint _ h hh).elim

theorem packageResult_spec (s' : Sheet) (ok : Bool) (m : String)
    (h : ok = true → successMsgOK m) : RewardFeedbackOK (packageResult s' ok m) := by
  cases ok with
  | false => exact rewardFeedbackOK_error s' m
  | true =>
    rcases h rfl with ⟨t, ht⟩ | hf
    · rw [packageResult, if_pos rfl, if_pos (pyStartsWith_of_strBegins m t ht)]
      exact rewardFeedbackOK_success s' m ⟨" " ++ t, by rw [ht]; rfl⟩
    · rw [packageResult, if_pos rfl, if_neg (by rw [hf]; exact Bool.false_ne_true)]
      exact rewardFeedbackOK_success s' ("Success: " ++ m) ⟨" " ++ m, rfl⟩

/-- Invariant on a dispatcher branch outcome: a successful `done` result
carries a packaging-compatible message. -/
def houtOK : HOut → Prop
  | .done _ true m => successMsgOK m
  | _ => True

theorem houtOK_done_of_msgOK (t : Sheet × Bool × String)
    (h : t.2.1 = true → successMsgOK t.2.2) :
    houtOK (.done t.1 t.2.1 t.2.2) := by
  rcases t with ⟨s1, ok, m⟩
  cases ok with
  | false => trivial
  | true => exact h rfl

theorem clearSheet_msgOK (s : Sheet) :
    (clearSheet s).2.1 = true → successMsgOK (clearSheet s).2.2 :=
  fun _ => Or.inr rfl

theorem addRow_msgOK (s : Sheet) (ri text : PyVal) :
    (addRow s ri text).2.1 = true → successMsgOK (addRow s ri text).2.2 := by
  unfold addRow
  split
  · intro h; simp at h
  · split
    · intro h; simp at h
    · intro _; exact Or.inr rfl

theorem writeCell_msgOK (s : Sheet) (ri ci text : PyVal) :
    (writeCell s ri ci text).2.1 = true → successMsgOK (writeCell s ri ci text).2.2 := by
  unfold writeCell
  split
  · intro h; simp at h
  · split
    · intro h; simp at h
    · split
      · intro h; simp at h
      · split
        · intro h; simp at h
        · split
          · intro h; simp at h
          · intro _; exact Or.inr rfl

theorem writeRow_msgOK (s : Sheet) (ri rd : PyVal) :
    (writeRow s ri rd).2.1 = true → successMsgOK (writeRow s ri rd).2.2 := by
  unfold writeRow
  split
  · intro h; simp at h
  · split
    · intro h; simp at h
    · split
      · intro _; exact Or.inr rfl
      · split
        · intro h; simp at h
        · split
          · intro h; simp at h
          · split
            · intro h; simp at h
            · intro _; exact Or.inr rfl
    · intro h; simp at h

theorem clearCell_msgOK (s : Sheet) (ri ci : PyVal) :
    (clearCell s ri ci).2.1 = true → successMsgOK (clearCell s ri ci).2.2 := by
  unfold clearCell
  split
  · intro h; simp at h
  · split
    · intro h; simp at h
    · split
      · intro h; simp at h
      · split
        · intro h; simp at h
        · intro _; exact Or.inr rfl

theorem clearRow_msgOK (s : Sheet) (ri : PyVal) :
    (clearRow s ri).2.1 = true → successMsgOK (clearRow s ri).2.2 := by
  unfold clearRow
  split
  · intro h; simp at h
  · split
    · intro h; simp at h
    · split
      · intro h; simp at h
      · intro _; exact Or.inr rfl

theorem clearColumn_msgOK (s : Sheet) (ci : PyVal) :
    (clearColumn s ci).2.1 = true → successMsgOK (clearColumn s ci).2.2 := by
  unfold clearColumn
  split
  · intro h; simp at h
  · split
    · intro h; simp at h
    · intro _; exact Or.inr rfl

theorem hClearSheet_OK (s : Sheet) : houtOK (hClearSheet s) :=
  houtOK_done_of_msgOK (clearSheet s) (clearSheet_msgOK s)

theorem hAddRow_OK (s : Sheet) (ps : Params) : houtOK (hAddRow s ps) := by
  unfold hAddRow
  split
  · trivial
  · split
    · trivial
    · exact houtOK_done_of_msgOK _ (addRow_msgOK _ _ _)

theorem hWriteCell_OK (s : Sheet) (ps : Params) : houtOK (hWriteCell s ps) := by
  unfold hWriteCell
  split
  · trivial
  · split
    · trivial
    · split
      · trivial
      · exact houtOK_done_of_msgOK _ (writeCell_msgOK _ _ _ _)

theorem hWriteRow_OK (s : Sheet) (ps : Params) : houtOK (hWriteRow s ps) := by
  unfold hWriteRow
  split
  · trivial
  · split
    · trivial
    · exact houtOK_done_of_msgOK _ (writeRow_msgOK _ _ _)

theorem hClearCell_OK (s : Sheet) (ps : Params) : houtOK (hClearCell s ps) := by
  unfold hClearCell
  split
  · trivial
  · exact houtOK_done_of_msgOK _ (clearCell_msgOK _ _ _)

theorem hClearRow_OK (s : Sheet) (ps : Params) : houtOK (hClearRow s ps) := by
  unfold hClearRow
  split
  · trivial
  · exact houtOK_done_of_msgOK _ (clearRow_msgOK _ _)

theorem hClearColumn_OK (s : Sheet) (ps : Params) : houtOK (hClearColumn s ps) := by
  unfold hClearColumn
  split
  · trivial
  · exact houtOK_done_of_msgOK _ (clearColumn_msgOK _ _)

theorem hReadHeaderRow_OK (s : Sheet) : houtOK (hReadHeaderRow s) := by
  unfold hReadHeaderRow
  split
  · exact Or.inl ⟨"Header row read successfully. Headers found: " ++ joinQuotedAll _, rfl⟩
  · trivial

theorem hReadColumn_OK (s : Sheet) (ps : Params) : houtOK (hReadColumn s ps) := by
  unfold hReadColumn
  split
  · trivial
  · split
    · trivial
    · split
      · exact Or.inl ⟨_ ++ " read successfully. Values: " ++ colSummary _, rfl⟩
      · trivial

theorem hReadCell_OK (s : Sheet) (ps : Params) : houtOK (hReadCell s ps) := by
  unfold hReadCell
  split
  · trivial
  · split
    · split
      · split
        · trivial
        · exact Or.inl ⟨"Read value '" ++
            pyStr (readCell s (getP ps "row_index") (getP ps "col_index")).1 ++ "' from " ++
            fmtCellRef (pyStr (getP ps "row_index")) (colLetter _), rfl⟩
      · exact Or.inl ⟨"Cell read successfully. Result: " ++
          pyStr (readCell s (getP ps "row_index") (getP ps "col_index")).1, rfl⟩
    · trivial

theorem hReadRow_OK (s : Sheet) (ps : Params) : houtOK (hReadRow s ps) := by
  unfold hReadRow
  split
  · trivial
  · split
    · split
      · trivial
      · exact Or.inl ⟨"Row " ++ pyStr (getP ps "row_index") ++
          " read successfully. Values: " ++ writeRowSummary _, rfl⟩
    · trivial

theorem hGetColumnIndexByHeader_OK (s : Sheet) (ps : Params) :
    houtOK (hGetColumnIndexByHeader s ps) := by
  unfold hGetColumnIndexByHeader
  split
  · trivial
  · cases (getColumnIndexByHeader s (getP ps "header_name")).1 with
    | some i => exact Or.inl ⟨"Column index found by header. Result: " ++ toString i, rfl⟩
    | none => trivial

theorem hGetRowIndexByValue_OK (s : Sheet) (ps : Params) :
    houtOK (hGetRowIndexByValue s ps) := by
  unfold hGetRowIndexByValue
  split
  · trivial
  · cases (getRowIndexByValue s (getP ps "col_index") (getP ps "search_value")).1 with
    | some r => exact Or.inl ⟨"Row index found by value. Result: " ++ toString r, rfl⟩
    | none => trivial

theorem hUpdateCellByLookup_OK (s : Sheet) (ps : Params) :
    houtOK (hUpdateCellByLookup s ps) := by
  unfold hUpdateCellByLookup
  split
  · trivial
  · split
    · exact Or.inl ⟨"Cell updated successfully. " ++
        (updateCellByLookup s (getP ps "row_header") (getP ps "row_value")
          (getP ps "col_header") (getP ps "new_value")).2.2, rfl⟩
    · trivial

theorem dispatchByName_OK (s : Sheet) (name : String) (ps : Params) :
    houtOK (dispatchByName s name ps) := by
  delta dispatchByName
  by_cases h0 : name = "excel_clear_sheet"
  · rw [if_pos h0]
    exact hClearSheet_OK s
  rw [if_neg h0]
  by_cases h1 : name = "excel_add_row"
  · rw [if_pos h1]
    exact hAddRow_OK s ps
  rw [if_neg h1]
  by_cases h2 : name = "excel_write_cell"
  · rw [if_pos h2]
    exact hWriteCell_OK s ps
  rw [if_neg h2]
  by_cases h3 : name = "excel_write_row"
  · rw [if_pos h3]
    exact hWriteRow_OK s ps
  rw [if_neg h3]
  by_cases h4 : name = "excel_clear_cell"
  · rw [if_pos h4]
    exact hClearCell_OK s ps
  rw [if_neg h4]
  by_cases h5 : name = "excel_clear_row"
  · rw [if_pos h5]
    exact hClearRow_OK s ps
  rw [if_neg h5]
  by_cases h6 : name = "excel_clear_column"
  · rw [if_pos h6]
    exact hClearColumn_OK s ps
  rw [if_neg h6]
  by_cases h7 : name = "excel_read_header_row"
  · rw [if_pos h7]
    exact hReadHeaderRow_OK s
  rw [if_neg h7]
  by_cases h8 : name = "excel_read_column"
  · rw [if_pos h8]
    exact hReadColumn_OK s ps
  rw [if_neg h8]
  by_cases h9 : name = "excel_read_cell"
  · rw [if_pos h9]
    exact hReadCell_OK s ps
  rw [if_neg h9]
  by_cases h10 : name = "excel_read_row"
  · rw [if_pos h10]
    exact hReadRow_OK s ps
  rw [if_neg h10]
  by_cases h11 : name = "excel_get_column_index_by_header"
  · rw [if_pos h11]
    exact hGetColumnIndexByHeader_OK s ps
  rw [if_neg h11]
  by_cases h12 : name = "excel_get_row_index_by_value"
  · rw [if_pos h12]
    exact hGetRowIndexByValue_OK s ps
  rw [if_neg h12]
  by_cases h13 : name = "excel_update_cell_by_lookup"
  · rw [if_pos h13]
    exact hUpdateCellByLookup_OK s ps
  rw [if_neg h13]
  trivial

theorem dispatch_OK (s : Sheet) (fn : PyVal) (ps : Params) : houtOK (dispatch s fn ps) := by
  unfold dispatch
  split
  · exact dispatchByName_OK s _ ps
  · trivial

/-- C3: for every input envelope (malformed JSON, missing name, unknown
operation name, and missing or malformed parameters included),
`process_json_operation` returns a `(reward, feedback)` pair (without raising:
the embedding is total, every caught-exception path is an explicit branch),
where the reward is 1 or -1, the reward is 1 exactly when the feedback begins
with `"Success:"` (the dispatcher's marker of a fully successful operation),
and the reward is -1 exactly when the feedback begins with `"Error:"`. -/
theorem claim_C3_process_json_reward_feedback (s : Sheet) (env : Envelope) :
    ((processJsonOperation s env).2.1 = 1 ∨ (processJsonOperation s env).2.1 = -1) ∧
    ((processJsonOperation s env).2.1 = 1 ↔
      StrBegins "Success:" (processJsonOperation s env).2.2) ∧
    ((processJsonOperation s env).2.1 = -1 ↔
      StrBegins "Error:" (processJsonOperation s env).2.2) := by
  have key : RewardFeedbackOK (processJsonOperation s env) := by
    cases env with
    | malformed => exact rewardFeedbackOK_error s "Invalid JSON format"
    | parsed op =>
      obtain ⟨fno, pso⟩ := op
      unfold processJsonOperation
      cases fno with
      | none => exact rewardFeedbackOK_error s "JSON missing 'function_name' field"
      | some fn =>
        show RewardFeedbackOK (match dispatch s fn (pso.getD []) with
          | HOut.early m => (s, -1, "Error: " ++ m)
          | HOut.raised m => (s, -1, "Error: " ++ m)
          | HOut.done s1 ok m => packageResult s1 ok m)
        have hd := dispatch_OK s fn (pso.getD [])
        cases hout : dispatch s fn (pso.getD []) with
        | early m => exact rewardFeedbackOK_error s m
        | raised m => exact rewardFeedbackOK_error s m
        | done s1 ok m =>
          rw [hout] at hd
          exact packageResult_spec s1 ok m (fun hok => by rw [hok] at hd; exact hd)
  exact key

/-!  Characterizations of the linear scans and index-resolution helpers. -/

theorem findValueIdx_none :
    ∀ (l : List PyVal) (tgt : String) (i : Nat),
      (∀ v ∈ l, matchCell tgt v = false) → findValueIdx l tgt i = none
  | [], _, _, _ => rfl
  | v :: t, tgt, i, h => by
      unfold findValueIdx
      rw [h v (by simp)]
      exact findValueIdx_none t tgt (i + 1) (fun w hw => h w (by simp [hw]))

theorem findValueIdx_first :
    ∀ (l : List PyVal) (tgt : String) (i k : Nat), k < l.length →
      matchCell tgt (l.getD k .pNone) = true →
      (∀ j, j < k → matchCell tgt (l.getD j .pNone) = false) →
      findValueIdx l tgt i = some (i + k)
  | [], _, _, k, hk, _, _ => by simp at hk
  | v :: t, tgt, i, 0, _, hm, _ => by
      unfold findValueIdx
      rw [show ((v :: t).getD 0 .pNone) = v from rfl] at hm
      rw [hm]
      simp
  | v :: t, tgt, i, k + 1, hk, hm, hf => by
      unfold findValueIdx
      rw [show matchCell tgt v = false from hf 0 (Nat.succ_pos k)]
      rw [findValueIdx_first t tgt (i + 1) k (by simp only [List.length_cons] at hk; omega)
        (by rw [show (t.getD k .pNone) = ((v :: t).getD (k + 1) .pNone) from rfl]; exact hm)
        (fun j hj => hf (j + 1) (by omega))]
      have he : i + 1 + k = i + (k + 1) := by omega
      rw [he]
      simp

theorem findValueIdx_ge :
    ∀ (l : List PyVal) (tgt : String) (i r : Nat), findValueIdx l tgt i = some r → i ≤ r
  | [], _, _, _, h => by simp [findValueIdx] at h
  | v :: t, tgt, i, r, h => by
      unfold findValueIdx at h
      by_cases hm : matchCell tgt v = true
      · rw [hm] at h
        simp at h
        omega
      · rw [Bool.not_eq_true] at hm
        rw [hm] at h
        simp at h
        have := findValueIdx_ge t tgt (i + 1) r h
        omega

theorem findValueIdx_lt :
    ∀ (l : List PyVal) (tgt : String) (i r : Nat), findValueIdx l tgt i = some r → r < i + l.length
  | [], _, _, _, h => by simp [findValueIdx] at h
  | v :: t, tgt, i, r, h => by
      unfold findValueIdx at h
      by_cases hm : matchCell tgt v = true
      · rw [hm] at h
        simp at h
        simp [← h]
      · rw [Bool.not_eq_true] at hm
        rw [hm] at h
        simp at h
        have := findValueIdx_lt t tgt (i + 1) r h
        simp only [List.length_cons]
        omega

theorem findHeaderIdx_none :
    ∀ (l : List PyVal) (x : PyVal) (i : Nat),
      (∀ v ∈ l, pyEq v x = false) → findHeaderIdx l x i = none
  | [], _, _, _ => rfl
  | v :: t, x, i, h => by
      unfold findHeaderIdx
      rw [h v (by simp)]
      exact findHeaderIdx_none t x (i + 1) (fun w hw => h w (by simp [hw]))

theorem findHeaderIdx_first :
    ∀ (l : List PyVal) (x : PyVal) (i k : Nat), k < l.length →
      pyEq (l.getD k .pNone) x = true →
      (∀ j, j < k → pyEq (l.getD j .pNone) x = false) →
      findHeaderIdx l x i = some (i + k)
  | [], _, _, k, hk, _, _ => by simp at hk
  | v :: t, x, i, 0, _, hm, _ => by
      unfold findHeaderIdx
      rw [show ((v :: t).getD 0 .pNone) = v from rfl] at hm
      rw [hm]
      simp
  | v :: t, x, i, k + 1, hk, hm, hf => by
      unfold findHeaderIdx
      rw [show pyEq v x = false from hf 0 (Nat.succ_pos k)]
      rw [findHeaderIdx_first t x (i + 1) k (by simp only [List.length_cons] at hk; omega)
        (by rw [show (t.getD k .pNone) = ((v :: t).getD (k + 1) .pNone) from rfl]; exact hm)
        (fun j hj => hf (j + 1) (by omega))]
      have he : i + 1 + k = i + (k + 1) := by omega
      rw [he]
      simp

theorem findHeaderIdx_ge :
    ∀ (l : List PyVal) (x : PyVal) (i r : Nat), findHeaderIdx l x i = some r → i ≤ r
  | [], _, _, _, h => by simp [findHeaderIdx] at h
  | v :: t, x, i, r, h => by
      unfold findHeaderIdx at h
      by_cases hm : pyEq v x = true
      · rw [hm] at h
        simp at h
        omega
      · rw [Bool.not_eq_true] at hm
        rw [hm] at h
        simp at h
        have := findHeaderIdx_ge t x (i + 1) r h
        omega

theorem findHeaderIdx_lt :
    ∀ (l : List PyVal) (x : PyVal) (i r : Nat), findHeaderIdx l x i = some r → r < i + l.length
  | [], _, _, _, h => by simp [findHeaderIdx] at h
  | v :: t, x, i, r, h => by
      unfold findHeaderIdx at h
      by_cases hm : pyEq v x = true
      · rw [hm] at h
        simp at h
        simp [← h]
      · rw [Bool.not_eq_true] at hm
        rw [hm] at h
        simp at h
        have := findHeaderIdx_lt t x (i + 1) r h
        simp only [List.length_cons]
        omega

theorem readHeaderRow_fst (s : Sheet) : (readHeaderRow s).1 = some (rowVals s 1) := by
  unfold readHeaderRow
  rw [if_neg (by have := maxRow_pos s; omega)]

theorem rowVals_isEmpty (s : Sheet) (r : Nat) : (rowVals s r).isEmpty = false := by
  have h := rowVals_length s r
  have h2 := maxCol_pos s
  cases hl : rowVals s r with
  | nil => rw [hl] at h; simp at h; omega
  | cons a t => rfl

theorem colVals_isEmpty (s : Sheet) (c : Nat) : (colVals s c).isEmpty = false := by
  have h := colVals_length s c
  have h2 := maxRow_pos s
  cases hl : colVals s c with
  | nil => rw [hl] at h; simp at h; omega
  | cons a t => rfl

theorem foldl_letters_ge_one :
    ∀ (u : List Char) (a : Nat), 1 ≤ a →
      1 ≤ u.foldl (fun a c => a * 26 + (c.toNat - 'A'.toNat + 1)) a
  | [], _, h => h
  | c :: t, a, _ =>
      foldl_letters_ge_one t (a * 26 + (c.toNat - 'A'.toNat + 1)) (by omega)

theorem lettersToIdx_pos (c : Char) (t : List Char) : 1 ≤ lettersToIdx (c :: t) :=
  foldl_letters_ge_one t (0 * 26 + (c.toNat - 'A'.toNat + 1)) (by omega)

theorem colLetterIndex_pos (str : String) (c : Nat) (h : colLetterIndex str = some c) :
    1 ≤ c := by
  simp only [colLetterIndex] at h
  split at h
  · rename_i hcond
    cases hu : str.data.map upperChar with
    | nil => rw [hu] at hcond; simp at hcond
    | cons a t =>
      rw [hu] at h
      simp at h
      have := lettersToIdx_pos a t
      omega
  · simp at h

theorem getColIndex_pos (v : PyVal) (c : Nat) (h : getColIndex v = some c) : 1 ≤ c := by
  cases v with
  | pNone => simp [getColIndex] at h
  | pList xs => simp [getColIndex] at h
  | pBool b =>
    simp only [getColIndex] at h
    cases b with
    | false => simp at h
    | true => simp at h; omega
  | pInt n =>
    simp only [getColIndex] at h
    split at h
    · simp at h
    · rename_i hn
      simp at h
      omega
  | pStr str =>
    simp only [getColIndex] at h
    split at h
    · split at h
      · simp at h
      · rename_i hne
        simp at h
        omega
    · exact colLetterIndex_pos str c h

theorem getColumnIndexByHeader_first (s : Sheet) (x : PyVal) (k : Nat)
    (hk : k < maxCol s)
    (hm : pyEq ((rowVals s 1).getD k .pNone) x = true)
    (hf : ∀ j, j < k → pyEq ((rowVals s 1).getD j .pNone) x = false) :
    (getColumnIndexByHeader s x).1 = some (k + 1) := by
  unfold getColumnIndexByHeader
  rw [readHeaderRow_fst]
  show (if (rowVals s 1).isEmpty = true then ((none : Option Nat), "No header row found")
      else match findHeaderIdx (rowVals s 1) x 1 with
        | some i => (some i, "Column index found by header: " ++ pyStr x)
        | none => (none, "Header '" ++ pyStr x ++ "' not found")).1 = some (k + 1)
  rw [rowVals_isEmpty, if_neg Bool.false_ne_true]
  rw [findHeaderIdx_first (rowVals s 1) x 1 k (by rw [rowVals_length]; omega) hm hf]
  simp [Nat.add_comm]

theorem getColumnIndexByHeader_notfound (s : Sheet) (x : PyVal)
    (hnone : ∀ v ∈ rowVals s 1, pyEq v x = false) :
    getColumnIndexByHeader s x = (none, "Header '" ++ pyStr x ++ "' not found") := by
  unfold getColumnIndexByHeader
  rw [readHeaderRow_fst]
  show (if (rowVals s 1).isEmpty = true then ((none : Option Nat), "No header row found")
      else match findHeaderIdx (rowVals s 1) x 1 with
        | some i => (some i, "Column index found by header: " ++ pyStr x)
        | none => (none, "Header '" ++ pyStr x ++ "' not found")) = _
  rw [rowVals_isEmpty, if_neg Bool.false_ne_true]
  rw [findHeaderIdx_none (rowVals s 1) x 1 hnone]

theorem getColumnIndexByHeader_bounds (s : Sheet) (x : PyVal) (i : Nat)
    (h : (getColumnIndexByHeader s x).1 = some i) : 1 ≤ i ∧ i ≤ maxCol s := by
  unfold getColumnIndexByHeader at h
  rw [readHeaderRow_fst] at h
  rw [show (match (some (rowVals s 1) : Option (List PyVal)) with
      | none => ((none : Option Nat), "Error finding column index")
      | some l =>
        if l.isEmpty then ((none : Option Nat), "No header row found")
        else match findHeaderIdx l x 1 with
          | some i => (some i, "Column index found by header: " ++ pyStr x)
          | none => (none, "Header '" ++ pyStr x ++ "' not found")) =
      (if (rowVals s 1).isEmpty = true then ((none : Option Nat), "No header row found")
      else match findHeaderIdx (rowVals s 1) x 1 with
        | some i => (some i, "Column index found by header: " ++ pyStr x)
        | none => (none, "Header '" ++ pyStr x ++ "' not found")) from rfl] at h
  rw [rowVals_isEmpty, if_neg Bool.false_ne_true] at h
  cases hf : findHeaderIdx (rowVals s 1) x 1 with
  | none => rw [hf] at h; simp at h
  | some r =>
    rw [hf] at h
    simp at h
    have h1 := findHeaderIdx_ge (rowVals s 1) x 1 r hf
    have h2 := findHeaderIdx_lt (rowVals s 1) x 1 r hf
    rw [rowVals_length] at h2
    omega

theorem readColumn_fst (s : Sheet) (colRef : PyVal) (c : Nat)
    (hc : getColIndex colRef = some c) (hcb : c ≤ maxColLetterIdx) :
    (readColumn s colRef).1 = some (colVals s c) := by
  unfold readColumn
  rw [hc]
  show (if maxRow s < 1 then (some ([] : List PyVal), "Sheet is empty, no column to read")
      else if maxColLetterIdx < c then
        ((none : Option (List PyVal)), "Error reading column: Invalid column index " ++ toString c)
      else (some (colVals s c), "Column " ++ pyStr colRef ++ " read successfully")).1 =
    some (colVals s c)
  rw [if_neg (by have := maxRow_pos s; omega), if_neg (by omega)]

theorem getRowIndexByValue_first (s : Sheet) (colRef sv : PyVal) (c k : Nat)
    (hc : getColIndex colRef = some c) (hcb : c ≤ maxColLetterIdx)
    (hk : k < maxRow s)
    (hm : matchCell (pyStr sv) ((colVals s c).getD k .pNone) = true)
    (hf : ∀ j, j < k → matchCell (pyStr sv) ((colVals s c).getD j .pNone) = false) :
    (getRowIndexByValue s colRef sv).1 = some (k + 1) := by
  unfold getRowIndexByValue
  rw [hc]
  show (if c = 0 then ((none : Option Nat), "Invalid column index: " ++ pyStr colRef)
      else match (readColumn s colRef).1 with
        | none => ((none : Option Nat), "No data found in column " ++ pyStr colRef)
        | some data =>
          if data.isEmpty then ((none : Option Nat), "No data found in column " ++ pyStr colRef)
          else match findValueIdx data (pyStr sv) 1 with
            | some r =>
                (some r, "Row index found: " ++ toString r ++ " with value '" ++
                  pyStr sv ++ "' in column " ++ pyStr colRef)
            | none =>
                (none, "Value '" ++ pyStr sv ++ "' not found in column " ++
                  pyStr colRef)).1 = some (k + 1)
  rw [if_neg (by have := getColIndex_pos _ _ hc; omega)]
  rw [readColumn_fst s colRef c hc hcb]
  show (if (colVals s c).isEmpty = true then
        ((none : Option Nat), "No data found in column " ++ pyStr colRef)
      else match findValueIdx (colVals s c) (pyStr sv) 1 with
        | some r =>
            (some r, "Row index found: " ++ toString r ++ " with value '" ++
              pyStr sv ++ "' in column " ++ pyStr colRef)
        | none =>
            (none, "Value '" ++ pyStr sv ++ "' not found in column " ++
              pyStr colRef)).1 = some (k + 1)
  rw [colVals_isEmpty, if_neg Bool.false_ne_true]
  rw [findValueIdx_first (colVals s c) (pyStr sv) 1 k (by rw [colVals_length]; omega) hm hf]
  simp [Nat.add_comm]

theorem getRowIndexByValue_notfound (s : Sheet) (colRef sv : PyVal) (c : Nat)
    (hc : getColIndex colRef = some c) (hcb : c ≤ maxColLetterIdx)
    (hnone : ∀ v ∈ colVals s c, matchCell (pyStr sv) v = false) :
    getRowIndexByValue s colRef sv =
      (none, "Value '" ++ pyStr sv ++ "' not found in column " ++ pyStr colRef) := by
  unfold getRowIndexByValue
  rw [hc]
  show (if c = 0 then ((none : Option Nat), "Invalid column index: " ++ pyStr colRef)
      else match (readColumn s colRef).1 with
        | none => ((none : Option Nat), "No data found in column " ++ pyStr colRef)
        | some data =>
          if data.isEmpty then ((none : Option Nat), "No data found in column " ++ pyStr colRef)
          else match findValueIdx data (pyStr sv) 1 with
            | some r =>
                (some r, "Row index found: " ++ toString r ++ " with value '" ++
                  pyStr sv ++ "' in column " ++ pyStr colRef)
            | none =>
                (none, "Value '" ++ pyStr sv ++ "' not found in column " ++
                  pyStr colRef)) = _
  rw [if_neg (by have := getColIndex_pos _ _ hc; omega)]
  rw [readColumn_fst s colRef c hc hcb]
  show (if (colVals s c).isEmpty = true then
        ((none : Option Nat), "No data found in column " ++ pyStr colRef)
      else match findValueIdx (colVals s c) (pyStr sv) 1 with
        | some r =>
            (some r, "Row index found: " ++ toString r ++ " with value '" ++
              pyStr sv ++ "' in column " ++ pyStr colRef)
        | none =>
            (none, "Value '" ++ pyStr sv ++ "' not found in column " ++
              pyStr colRef)) = _
  rw [colVals_isEmpty, if_neg Bool.false_ne_true]
  rw [findValueIdx_none (colVals s c) (pyStr sv) 1 hnone]

theorem getRowIndexByValue_bounds (s : Sheet) (colRef sv : PyVal) (c i : Nat)
    (hc : getColIndex colRef = some c) (hcb : c ≤ maxColLetterIdx)
    (h : (getRowIndexByValue s colRef sv).1 = some i) : 1 ≤ i ∧ i ≤ maxRow s := by
  unfold getRowIndexByValue at h
  rw [hc] at h
  rw [show (match (some c : Option Nat) with
      | none => ((none : Option Nat), "Invalid column index: " ++ pyStr colRef)
      | some c =>
        if c = 0 then ((none : Option Nat), "Invalid column index: " ++ pyStr colRef)
        else match (readColumn s colRef).1 with
          | none => ((none : Option Nat), "No data found in column " ++ pyStr colRef)
          | some data =>
            if data.isEmpty then
              ((none : Option Nat), "No data found in column " ++ pyStr colRef)
            else match findValueIdx data (pyStr sv) 1 with
              | some r =>
                  (some r, "Row index found: " ++ toString r ++ " with value '" ++
                    pyStr sv ++ "' in column " ++ pyStr colRef)
              | none =>
                  (none, "Value '" ++ pyStr sv ++ "' not found in column " ++
                    pyStr colRef)) =
    (if c = 0 then ((none : Option Nat), "Invalid column index: " ++ pyStr colRef)
      else match (readColumn s colRef).1 with
        | none => ((none : Option Nat), "No data found in column " ++ pyStr colRef)
        | some data =>
          if data.isEmpty then
            ((none : Option Nat), "No data found in column " ++ pyStr colRef)
          else match findValueIdx data (pyStr sv) 1 with
            | some r =>
                (some r, "Row index found: " ++ toString r ++ " with value '" ++
                  pyStr sv ++ "' in column " ++ pyStr colRef)
            | none =>
                (none, "Value '" ++ pyStr sv ++ "' not found in column " ++
                  pyStr colRef)) from rfl] at h
  rw [if_neg (by have := getColIndex_pos _ _ hc; omega)] at h
  rw [readColumn_fst s colRef c hc hcb] at h
  rw [show (match (some (colVals s c) : Option (List PyVal)) with
      | none => ((none : Option Nat), "No data found in column " ++ pyStr colRef)
      | some data =>
        if data.isEmpty then
          ((none : Option Nat), "No data found in column " ++ pyStr colRef)
        else match findValueIdx data (pyStr sv) 1 with
          | some r =>
              (some r, "Row index found: " ++ toString r ++ " with value '" ++
                pyStr sv ++ "' in column " ++ pyStr colRef)
          | none =>
              (none, "Value '" ++ pyStr sv ++ "' not found in column " ++
                pyStr colRef)) =
    (if (colVals s c).isEmpty = true then
        ((none : Option Nat), "No data found in column " ++ pyStr colRef)
      else match findValueIdx (colVals s c) (pyStr sv) 1 with
        | some r =>
            (some r, "Row index found: " ++ toString r ++ " with value '" ++
              pyStr sv ++ "' in column " ++ pyStr colRef)
        | none =>
            (none, "Value '" ++ pyStr sv ++ "' not found in column " ++
              pyStr colRef)) from rfl] at h
  rw [colVals_isEmpty, if_neg Bool.false_ne_true] at h
  cases hf : findValueIdx (colVals s c) (pyStr sv) 1 with
  | none => rw [hf] at h; simp at h
  | some r =>
    rw [hf] at h
    simp at h
    have h1 := findValueIdx_ge (colVals s c) (pyStr sv) 1 r hf
    have h2 := findValueIdx_lt (colVals s c) (pyStr sv) 1 r hf
    rw [colVals_length] at h2
    omega

/-!  Character-level facts about the letter/digit classification. -/

theorem upperChar_notAlpha (c : Char) (hc : c.isAlpha = false) :
    ('A' ≤ upperChar c && upperChar c ≤ 'Z') = false := by
  simp only [Char.isAlpha, Bool.or_eq_false_iff] at hc
  obtain ⟨hu, hl⟩ := hc
  have hlow : ('a' ≤ c && c ≤ 'z') = false := hl
  rw [upperChar, if_neg (by rw [hlow]; exact Bool.false_ne_true)]
  exact hu

theorem upperChar_of_upper (c : Char) (hc : ('A' ≤ c && c ≤ 'Z') = true) :
    upperChar c = c := by
  rw [Bool.and_eq_true] at hc
  rw [upperChar, if_neg]
  intro hlow
  rw [Bool.and_eq_true] at hlow
  have h1 : ('a' : Char) ≤ c := of_decide_eq_true hlow.1
  have h2 : c ≤ 'Z' := of_decide_eq_true hc.2
  have : ('a' : Char) ≤ 'Z' := le_trans h1 h2
  exact absurd this (by decide)

theorem upper_not_isDigit (c : Char) (hc : ('A' ≤ c && c ≤ 'Z') = true) :
    c.isDigit = false := by
  rw [Bool.and_eq_true] at hc
  have h1 : ('A' : Char) ≤ c := of_decide_eq_true hc.1
  simp only [Char.isDigit]
  rw [Bool.and_eq_false_iff]
  right
  rw [decide_eq_false_iff_not]
  intro h2
  have h3 : ('A' : Char).val ≤ '9'.val := le_trans h1 h2
  exact absurd h3 (by decide)

theorem alpha_not_isDigit (c : Char) (hc : c.isAlpha = true) : c.isDigit = false := by
  simp only [Char.isAlpha, Bool.or_eq_true] at hc
  simp only [Char.isDigit]
  rw [Bool.and_eq_false_iff]
  right
  rw [decide_eq_false_iff_not]
  intro h2
  have h2c : c ≤ '9' := h2
  rcases hc with h | h
  · simp only [Char.isUpper, Bool.and_eq_true] at h
    have h1 : ('A' : Char) ≤ c := of_decide_eq_true h.1
    have h3 : ('A' : Char) ≤ '9' := le_trans h1 h2c
    exact absurd h3 (by decide)
  · simp only [Char.isLower, Bool.and_eq_true] at h
    have h1 : ('a' : Char) ≤ c := of_decide_eq_true h.1
    have h3 : ('a' : Char) ≤ '9' := le_trans h1 h2c
    exact absurd h3 (by decide)

theorem pyIsDigit_false_of_alpha_head (a : Char) (t : List Char) (str : String)
    (hd : str.data = a :: t) (ha : a.isAlpha = true) : pyIsDigit str = false := by
  unfold pyIsDigit
  rw [hd]
  rw [Bool.and_eq_false_iff]
  right
  rw [List.all_cons, alpha_not_isDigit a ha]
  rfl

theorem colLetterIndex_notAlpha (str : String) (h : str.data.all Char.isAlpha = false) :
    colLetterIndex str = none := by
  simp only [colLetterIndex]
  rw [if_neg]
  intro hcond
  rw [Bool.and_eq_true, Bool.and_eq_true] at hcond
  have hall := hcond.2
  rw [List.all_map] at hall
  rw [List.all_eq_false] at h
  obtain ⟨x, hx, hxa⟩ := h
  rw [List.all_eq_true] at hall
  have := hall x hx
  simp only [Function.comp] at this
  rw [upperChar_notAlpha x (by revert hxa; cases x.isAlpha <;> simp)] at this
  exact absurd this Bool.false_ne_true

theorem colLetterIndex_overflow (str : String) (h : 3 < str.data.length) :
    colLetterIndex str = none := by
  simp only [colLetterIndex]
  rw [if_neg]
  intro hcond
  rw [Bool.and_eq_true, Bool.and_eq_true] at hcond
  have hlen : ((str.data.map upperChar).length ≤ 3) := of_decide_eq_true hcond.1.2
  rw [List.length_map] at hlen
  omega

theorem colLetterIndex_upper (str : String)
    (hne : str.data ≠ []) (hlen : str.data.length ≤ 3)
    (hall : str.data.all (fun c => 'A' ≤ c && c ≤ 'Z') = true) :
    colLetterIndex str = some (lettersToIdx str.data) := by
  have hmap : str.data.map upperChar = str.data := by
    have hid : ∀ a ∈ str.data, upperChar a = id a := by
      intro a ha
      rw [List.all_eq_true] at hall
      exact upperChar_of_upper a (hall a ha)
    rw [List.map_congr_left hid, List.map_id]
  simp only [colLetterIndex]
  rw [hmap, if_pos]
  rw [Bool.and_eq_true, Bool.and_eq_true]
  refine ⟨⟨?_, ?_⟩, hall⟩
  · rw [decide_eq_true_iff]
    cases hl : str.data with
    | nil => exact absurd hl hne
    | cons a t => simp
  · rw [decide_eq_true_iff]
    exact hlen

/-- C4: `resolveColumn` (`_get_col_index`) accepts a positive integer, a
positive digit-string, or an alphabetic label; alphabetic labels map through
the bijective base-26 encoding (`A`=1, `Z`=26, `AA`=27, case-insensitively);
and it fails on every non-positive integer, the zero digit-string, every
string that is neither alphabetic nor digits, and every alphabetic label
longer than the three letters the conversion table holds (the overflow case). -/
theorem claim_C4_resolveColumn_spec :
    (getColIndex (.pStr "A") = some 1 ∧ getColIndex (.pStr "Z") = some 26 ∧
      getColIndex (.pStr "AA") = some 27 ∧ getColIndex (.pStr "aa") = some 27) ∧
    (∀ n : Int, 0 < n → getColIndex (.pInt n) = some n.toNat) ∧
    (∀ n : Int, n ≤ 0 → getColIndex (.pInt n) = none) ∧
    (∀ str : String, pyIsDigit str = true → 0 < digitsToNat str →
      getColIndex (.pStr str) = some (digitsToNat str)) ∧
    (∀ str : String, pyIsDigit str = true → digitsToNat str = 0 →
      getColIndex (.pStr str) = none) ∧
    (∀ str : String, pyIsDigit str = false → str.data.all Char.isAlpha = false →
      getColIndex (.pStr str) = none) ∧
    (∀ str : String, str.data ≠ [] → str.data.length ≤ 3 →
      str.data.all (fun c => 'A' ≤ c && c ≤ 'Z') = true →
      getColIndex (.pStr str) = some (lettersToIdx str.data)) ∧
    (∀ str : String, str.data.all Char.isAlpha = true → 3 < str.data.length →
      getColIndex (.pStr str) = none) := by
  refine ⟨⟨rfl, rfl, rfl, rfl⟩, ?_, ?_, ?_, ?_, ?_, ?_, ?_⟩
  · intro n h
    simp only [getColIndex]
    rw [if_neg (by omega)]
  · intro n h
    simp only [getColIndex]
    rw [if_pos (by omega)]
  · intro str h1 h2
    simp only [getColIndex]
    rw [if_pos h1, if_neg (by omega)]
  · intro str h1 h2
    simp only [getColIndex]
    rw [if_pos h1, if_pos h2]
  · intro str h1 h2
    simp only [getColIndex]
    rw [if_neg (by rw [h1]; exact Bool.false_ne_true)]
    exact colLetterIndex_notAlpha str h2
  · intro str hne hlen hall
    have hdig : pyIsDigit str = false := by
      cases hd : str.data with
      | nil => exact absurd hd hne
      | cons a t =>
        refine pyIsDigit_false_of_alpha_head a t str hd ?_
        rw [List.all_eq_true] at hall
        have := hall a (by rw [hd]; simp)
        rw [Bool.and_eq_true] at this
        simp only [Char.isAlpha, Char.isUpper, Bool.or_eq_true, Bool.and_eq_true]
        left
        exact this
    simp only [getColIndex]
    rw [if_neg (by rw [hdig]; exact Bool.false_ne_true)]
    exact colLetterIndex_upper str hne hlen hall
  · intro str hall hlen
    have hdig : pyIsDigit str = false := by
      cases hd : str.data with
      | nil => rw [hd] at hlen; simp at hlen
      | cons a t =>
        refine pyIsDigit_false_of_alpha_head a t str hd ?_
        rw [List.all_eq_true] at hall
        exact hall a (by rw [hd]; simp)
    simp only [getColIndex]
    rw [if_neg (by rw [hdig]; exact Bool.false_ne_true)]
    exact colLetterIndex_overflow str hlen

/-- Witness for C4 at concrete inputs: the integer 7 resolves to 7, -3 and
"0" are rejected, "12" resolves to 12, "A1" (neither alphabetic nor digits)
is rejected, "BC" maps through base-26, and "AAAA" overflows. -/
theorem claim_C4_resolveColumn_spec_witness :
    getColIndex (.pInt 7) = some 7 ∧ getColIndex (.pInt (-3)) = none ∧
    getColIndex (.pStr "0") = none ∧ getColIndex (.pStr "12") = some 12 ∧
    getColIndex (.pStr "A1") = none ∧ getColIndex (.pStr "BC") = some 55 ∧
    getColIndex (.pStr "AAAA") = none := by
  have h := claim_C4_resolveColumn_spec
  exact ⟨h.2.1 7 (by decide), h.2.2.1 (-3) (by decide),
    h.2.2.2.2.1 "0" (by decide) (by decide),
    h.2.2.2.1 "12" (by decide) (by decide),
    h.2.2.2.2.2.1 "A1" (by decide) (by decide),
    h.2.2.2.2.2.2.1 "BC" (by decide) (by decide) (by decide),
    h.2.2.2.2.2.2.2 "AAAA" (by decide) (by decide)⟩

theorem strAppend_assoc (a b c : String) : a ++ b ++ c = a ++ (b ++ c) :=
  congrArg String.mk (List.append_assoc a.data b.data c.data)

theorem strAppend_empty (a : String) : a ++ "" = a :=
  congrArg String.mk (List.append_nil a.data)

/-- C5, counterexample to the claim as stated: in a column whose first cell is
empty (`None`), the cell's Python string representation equals
`str("None")`, so under "compares the string representation of each cell" a
matching row exists; yet `get_row_index_by_value` returns not-found, because
the source skips `None` cells before comparing. -/
theorem claim_C5_counterexample :
    pyStr ((colVals demoNoneSheet 1).getD 0 .pNone) = pyStr (.pStr "None") ∧
    (getRowIndexByValue demoNoneSheet (.pInt 1) (.pStr "None")).1 = none :=
  ⟨rfl, rfl⟩

/-- C5 (amended): for every resolvable column reference, `rowIndexForValue`
compares the string representation of each NON-EMPTY cell in that column
against `str(searchValue)` — empty (`None`) cells are skipped — so numeric
50000 matches the string "50000"; it returns the 1-based index of the first
(topmost) matching row when one exists, even when several rows match, and
fails with the value-not-found error message when no row matches. -/
theorem claim_C5_rowIndexForValue_amended (s : Sheet) (colRef sv : PyVal) (c : Nat)
    (hc : getColIndex colRef = some c) (hcb : c ≤ maxColLetterIdx) :
    (∀ k, k < maxRow s →
      matchCell (pyStr sv) ((colVals s c).getD k .pNone) = true →
      (∀ j, j < k → matchCell (pyStr sv) ((colVals s c).getD j .pNone) = false) →
      (getRowIndexByValue s colRef sv).1 = some (k + 1)) ∧
    ((∀ v ∈ colVals s c, matchCell (pyStr sv) v = false) →
      getRowIndexByValue s colRef sv =
        (none, "Value '" ++ pyStr sv ++ "' not found in column " ++ pyStr colRef)) ∧
    (∀ v : PyVal, v ≠ .pNone → matchCell (pyStr sv) v = (pyStr v == pyStr sv)) ∧
    (matchCell (pyStr sv) .pNone = false) := by
  refine ⟨?_, ?_, ?_, rfl⟩
  · intro k hk hm hf
    exact getRowIndexByValue_first s colRef sv c k hc hcb hk hm hf
  · intro h
    exact getRowIndexByValue_notfound s colRef sv c hc hcb h
  · intro v hv
    cases v with
    | pNone => exact absurd rfl hv
    | pBool b => rfl
    | pInt n => rfl
    | pStr str => rfl
    | pList xs => rfl

/-- Witness for the amended C5: in `demoValueSheet` the numeric cell 50000
(row 2) is found by the string search value "50000"; searching the same
column for "absent" reports the not-found error. -/
theorem claim_C5_rowIndexForValue_amended_witness :
    (getRowIndexByValue demoValueSheet (.pInt 1) (.pStr "50000")).1 = some 2 ∧
    getRowIndexByValue demoValueSheet (.pInt 1) (.pStr "absent") =
      (none, "Value 'absent' not found in column 1") := by
  constructor
  · exact (claim_C5_rowIndexForValue_amended demoValueSheet (.pInt 1) (.pStr "50000") 1
      (by decide) (by decide)).1 1 (by decide) (by decide)
      (by intro j hj; interval_cases j; decide)
  · exact (claim_C5_rowIndexForValue_amended demoValueSheet (.pInt 1) (.pStr "absent") 1
      (by decide) (by decide)).2.1 (by decide)

/-- C6: `columnIndexForHeader` returns the 1-based index of the first column
of the header row whose cell equals the requested label under exact (`==`,
case-sensitive, untrimmed) string comparison; and for every label with no
exact match in the header row it fails, so that the corresponding
`excel_get_column_index_by_header` envelope returns reward -1 with feedback
containing "not found". -/
theorem claim_C6_columnIndexForHeader_spec (s : Sheet) (label : String) :
    (∀ k, k < maxCol s →
      pyEq ((rowVals s 1).getD k .pNone) (.pStr label) = true →
      (∀ j, j < k → pyEq ((rowVals s 1).getD j .pNone) (.pStr label) = false) →
      (getColumnIndexByHeader s (.pStr label)).1 = some (k + 1)) ∧
    (∀ a b : String, pyEq (.pStr a) (.pStr b) = (a == b)) ∧
    ((∀ v ∈ rowVals s 1, pyEq v (.pStr label) = false) →
      (getColumnIndexByHeader s (.pStr label)).1 = none ∧
      (processJsonOperation s (.parsed ⟨some (.pStr "excel_get_column_index_by_header"),
          some [("header_name", .pStr label)]⟩)).2.1 = -1 ∧
      StrContains "not found"
        (processJsonOperation s (.parsed ⟨some (.pStr "excel_get_column_index_by_header"),
          some [("header_name", .pStr label)]⟩)).2.2) := by
  refine ⟨?_, fun a b => rfl, ?_⟩
  · intro k hk hm hf
    exact getColumnIndexByHeader_first s (.pStr label) k hk hm hf
  · intro h
    have hg := getColumnIndexByHeader_notfound s (.pStr label) h
    have h1 : (getColumnIndexByHeader s (.pStr label)).1 = none := by rw [hg]
    have hdisp : dispatch s (.pStr "excel_get_column_index_by_header")
        [("header_name", .pStr label)] =
        HOut.done s false (getColumnIndexByHeader s (.pStr label)).2 := by
      show (match (getColumnIndexByHeader s (.pStr label)).1 with
        | some i =>
            HOut.done s true ("Success: Column index found by header. Result: " ++ toString i)
        | none => HOut.done s false (getColumnIndexByHeader s (.pStr label)).2) =
        HOut.done s false (getColumnIndexByHeader s (.pStr label)).2
      rw [h1]
    have henv : processJsonOperation s (.parsed ⟨some (.pStr "excel_get_column_index_by_header"),
        some [("header_name", .pStr label)]⟩) =
        (s, -1, "Error: " ++ ("Header '" ++ label ++ "' not found")) := by
      show (match dispatch s (.pStr "excel_get_column_index_by_header")
            [("header_name", .pStr label)] with
        | HOut.early m => (s, -1, "Error: " ++ m)
        | HOut.raised m => (s, -1, "Error: " ++ m)
        | HOut.done s1 ok m => packageResult s1 ok m) =
        (s, -1, "Error: " ++ ("Header '" ++ label ++ "' not found"))
      rw [hdisp, hg]
      rfl
    refine ⟨h1, by rw [henv], ?_⟩
    rw [henv]
    refine ⟨"Error: " ++ ("Header '" ++ label ++ "' "), "", ?_⟩
    rw [strAppend_empty]
    exact congrArg String.mk (by
      simp only [strData_append, List.append_assoc]
      rfl)

theorem validateRowIndex_posInt (r : Nat) (hr : 1 ≤ r) :
    validateRowIndex (.pInt (r : Int)) = true := by
  simp only [validateRowIndex]
  exact decide_eq_true (by omega)

theorem getColIndex_posInt (c : Nat) (hc : 1 ≤ c) :
    getColIndex (.pInt (c : Int)) = some c := by
  simp only [getColIndex]
  rw [if_neg (by omega)]
  simp

theorem rowCellTarget_posInt (r : Nat) (hr : 1 ≤ r) :
    rowCellTarget (.pInt (r : Int)) = some r := by
  simp only [rowCellTarget]
  rw [if_pos (by omega)]
  simp

theorem writeCell_posInt (s : Sheet) (r c : Nat) (v : PyVal)
    (hr : 1 ≤ r) (hc : 1 ≤ c) (hcb : c ≤ maxColLetterIdx) (hv : writable v = true) :
    writeCell s (.pInt (r : Int)) (.pInt (c : Int)) v =
      (setCell s r c v, true, "Value '" ++ pyStr v ++ "' written to " ++
        fmtCellRef (pyStr (.pInt (r : Int))) (colLetter c)) := by
  unfold writeCell
  rw [if_neg (by
    rw [show convertDigitRow (.pInt (r : Int)) = .pInt (r : Int) from rfl,
      validateRowIndex_posInt r hr]
    decide)]
  rw [getColIndex_posInt c hc]
  show (if maxColLetterIdx < c then
      (s, false, "Error writing to cell: Invalid column index " ++ toString c)
    else match rowCellTarget (convertDigitRow (.pInt (r : Int))) with
      | none => (s, false, "Error writing to cell: row must be an integer")
      | some r' =>
        if !writable v then
          (s, false, "Error writing to cell: Cannot convert " ++ pyStr v ++ " to Excel")
        else
          (setCell s r' c v, true, "Value '" ++ pyStr v ++ "' written to " ++
            fmtCellRef (pyStr (convertDigitRow (.pInt (r : Int)))) (colLetter c))) = _
  rw [if_neg (by omega)]
  rw [show convertDigitRow (.pInt (r : Int)) = .pInt (r : Int) from rfl,
    rowCellTarget_posInt r hr]
  show (if !writable v then
      (s, false, "Error writing to cell: Cannot convert " ++ pyStr v ++ " to Excel")
    else
      (setCell s r c v, true, "Value '" ++ pyStr v ++ "' written to " ++
        fmtCellRef (pyStr (.pInt (r : Int))) (colLetter c))) = _
  rw [if_neg (by rw [hv]; decide)]

theorem readCell_posInt (s : Sheet) (r c : Nat)
    (hr : 1 ≤ r) (hc : 1 ≤ c) (hcb : c ≤ maxColLetterIdx) :
    readCell s (.pInt (r : Int)) (.pInt (c : Int)) =
      (getCell s r c, "Value '" ++ pyStr (getCell s r c) ++ "' read from " ++
        fmtCellRef (pyStr (.pInt (r : Int))) (colLetter c)) := by
  unfold readCell
  rw [if_neg (by rw [validateRowIndex_posInt r hr]; decide)]
  rw [getColIndex_posInt c hc]
  show (if maxColLetterIdx < c then
      (PyVal.pNone, "Error reading cell: Invalid column index " ++ toString c)
    else match rowCellTarget (.pInt (r : Int)) with
      | none => (PyVal.pNone, "Error reading cell: row must be an integer")
      | some r' =>
        (getCell s r' c, "Value '" ++ pyStr (getCell s r' c) ++ "' read from " ++
          fmtCellRef (pyStr (.pInt (r : Int))) (colLetter c))) = _
  rw [if_neg (by omega)]
  rw [rowCellTarget_posInt r hr]

/-- Witness for C6 at the concrete table: `Status` is found at column 2 by
first exact match, while the absent header `Salary` yields `none` and the
corresponding envelope is rewarded -1. -/
theorem claim_C6_columnIndexForHeader_spec_witness :
    (getColumnIndexByHeader demoTable (.pStr "Status")).1 = some 2 ∧
    (getColumnIndexByHeader demoTable (.pStr "Salary")).1 = none ∧
    (processJsonOperation demoTable
      (.parsed ⟨some (.pStr "excel_get_column_index_by_header"),
        some [("header_name", .pStr "Salary")]⟩)).2.1 = -1 := by
  refine ⟨?_, ?_, ?_⟩
  · exact (claim_C6_columnIndexForHeader_spec demoTable "Status").1 1 (by decide) (by decide)
      (by intro j hj; interval_cases j; decide)
  · exact ((claim_C6_columnIndexForHeader_spec demoTable "Salary").2.2 (by decide)).1
  · exact ((claim_C6_columnIndexForHeader_spec demoTable "Salary").2.2 (by decide)).2.1

/-- C2: for every valid cell address (positive row, positive in-range column)
and writable value `v`, `write_cell` succeeds, a subsequent `read_cell` of the
same address returns `v`, and no other cell's value changes — in particular
the anchor cell (1,1) keeps its value whenever the target is not (1,1). -/
theorem claim_C2_writeCell_readCell_frame (s : Sheet) (r c : Nat) (v : PyVal)
    (hr : 1 ≤ r) (hc : 1 ≤ c) (hcb : c ≤ maxColLetterIdx) (hv : writable v = true) :
    (writeCell s (.pInt (r : Int)) (.pInt (c : Int)) v).2.1 = true ∧
    (readCell (writeCell s (.pInt (r : Int)) (.pInt (c : Int)) v).1
      (.pInt (r : Int)) (.pInt (c : Int))).1 = v ∧
    (∀ r' c', 1 ≤ r' → 1 ≤ c' → (r', c') ≠ (r, c) →
      getCell (writeCell s (.pInt (r : Int)) (.pInt (c : Int)) v).1 r' c' =
        getCell s r' c') ∧
    ((r, c) ≠ (1, 1) →
      getCell (writeCell s (.pInt (r : Int)) (.pInt (c : Int)) v).1 1 1 =
        getCell s 1 1) := by
  have hw := writeCell_posInt s r c v hr hc hcb hv
  refine ⟨by rw [hw], ?_, ?_, ?_⟩
  · rw [hw]
    show (readCell (setCell s r c v) (.pInt (r : Int)) (.pInt (c : Int))).1 = v
    rw [readCell_posInt (setCell s r c v) r c hr hc hcb]
    exact getCell_setCell_self s r c v hr hc
  · intro r' c' hr' hc' hne
    rw [hw]
    exact getCell_setCell_ne s r c r' c' v hr' hc' hne hr hc
  · intro hne
    rw [hw]
    exact getCell_setCell_ne s r c 1 1 v (by omega) (by omega) (fun hh => hne hh.symm) hr hc

/-- Witness for C2: writing "x" at (2,3) of the demo table reads back "x",
and the anchor cell (1,1) still holds "Name". -/
theorem claim_C2_writeCell_readCell_frame_witness :
    (writeCell demoTable (.pInt 2) (.pInt 3) (.pStr "x")).2.1 = true ∧
    (readCell (writeCell demoTable (.pInt 2) (.pInt 3) (.pStr "x")).1
      (.pInt 2) (.pInt 3)).1 = .pStr "x" ∧
    getCell (writeCell demoTable (.pInt 2) (.pInt 3) (.pStr "x")).1 1 1 =
      getCell demoTable 1 1 := by
  have h := claim_C2_writeCell_readCell_frame demoTable 2 3 (.pStr "x")
    (by decide) (by decide) (by decide) (by decide)
  exact ⟨h.1, h.2.1, h.2.2.2 (by decide)⟩

theorem getD_of_length_le {α : Type} :
    ∀ (l : List α) (i : Nat) (d : α), l.length ≤ i → l.getD i d = d
  | [], i, _, _ => by cases i <;> rfl
  | _ :: _, 0, _, h => by simp at h
  | _ :: t, i + 1, d, h => getD_of_length_le t i d (by simpa using h)

theorem readRow_posInt (s : Sheet) (r : Nat) (hr : 1 ≤ r) :
    (readRow s (.pInt (r : Int))).1 =
      some (if maxRow s < r then [] else rowVals s r) := by
  unfold readRow
  rw [if_neg (by rw [validateRowIndex_posInt r hr]; decide)]
  rw [show convertDigitRow (.pInt (r : Int)) = .pInt (r : Int) from rfl,
    rowCellTarget_posInt r hr]
  show (if maxRow s < r then
      (some ([] : List PyVal), "Row " ++ pyStr (.pInt (r : Int)) ++ " does not exist")
    else
      (some (rowVals s r), "Row " ++ pyStr (.pInt (r : Int)) ++ " read successfully")).1 = _
  by_cases h : maxRow s < r
  · rw [if_pos h, if_pos h]
  · rw [if_neg h, if_neg h]

theorem readRow_valAt (s : Sheet) (r c : Nat) (hr : 1 ≤ r) (_hc : 1 ≤ c) :
    ((readRow s (.pInt (r : Int))).1.getD []).getD (c - 1) .pNone = getCell s r c := by
  rw [readRow_posInt s r hr]
  by_cases h : maxRow s < r
  · rw [if_pos h]
    have hcell : getCell s r c = .pNone := by
      have hlen : s.rows.length ≤ r - 1 := by
        have := maxRow_pos s
        simp only [maxRow] at h
        omega
      simp only [getCell]
      rw [getD_of_length_le s.rows (r - 1) [] hlen]
      exact getD_of_length_le [] (c - 1) PyVal.pNone (by simp)
    rw [hcell]
    rfl
  · rw [if_neg h]
    simp only [Option.getD_some]
    exact rowVals_getD s r c

theorem clearRow_posInt (s : Sheet) (r : Nat) (hr : 1 ≤ r) :
    clearRow s (.pInt (r : Int)) = (deleteRowAt s r, true,
      "Row " ++ pyStr (.pInt (r : Int)) ++ " deleted. Original values: " ++
        joinQuoted (if maxRow s < r then [] else rowVals s r)) := by
  unfold clearRow
  rw [if_neg (by rw [validateRowIndex_posInt r hr]; decide)]
  rw [show convertDigitRow (.pInt (r : Int)) = .pInt (r : Int) from rfl]
  rw [readRow_posInt s r hr, rowCellTarget_posInt r hr]

theorem getCell_deleteRowAt (s : Sheet) (r r' c : Nat) (hr : 1 ≤ r) (hr' : 1 ≤ r') :
    getCell (deleteRowAt s r) r' c =
      if r' < r then getCell s r' c else getCell s (r' + 1) c := by
  simp only [getCell, deleteRowAt]
  rw [getD_eraseIdx]
  by_cases h : r' < r
  · rw [if_pos (by omega : r' - 1 < r - 1), if_pos h]
  · rw [if_neg (by omega : ¬(r' - 1 < r - 1)), if_neg h]
    have he : r' - 1 + 1 = r' + 1 - 1 := by omega
    rw [he]

/-- C7: for every positive row index `r`, `clear_row(r)` succeeds, deletes
(does not blank) row `r`, and shifts every subsequent row up by one: reading
row `r` afterwards returns, position by position, the cell contents that were
at row `r + 1` before the call; rows above `r` are untouched. -/
theorem claim_C7_clearRow_shifts (s : Sheet) (r : Nat) (hr : 1 ≤ r) :
    (clearRow s (.pInt (r : Int))).2.1 = true ∧
    (∀ c, 1 ≤ c →
      ((readRow (clearRow s (.pInt (r : Int))).1 (.pInt (r : Int))).1.getD []).getD
          (c - 1) .pNone =
        ((readRow s (.pInt ((r + 1 : Nat) : Int))).1.getD []).getD (c - 1) .pNone) ∧
    (∀ r' c, r ≤ r' →
      getCell (clearRow s (.pInt (r : Int))).1 r' c = getCell s (r' + 1) c) ∧
    (∀ r' c, 1 ≤ r' → r' < r →
      getCell (clearRow s (.pInt (r : Int))).1 r' c = getCell s r' c) := by
  have hcr := clearRow_posInt s r hr
  refine ⟨by rw [hcr], ?_, ?_, ?_⟩
  · intro c hc
    rw [hcr]
    show ((readRow (deleteRowAt s r) (.pInt (r : Int))).1.getD []).getD (c - 1) .pNone = _
    rw [readRow_valAt (deleteRowAt s r) r c hr hc,
      readRow_valAt s (r + 1) c (by omega) hc]
    rw [getCell_deleteRowAt s r r c hr hr, if_neg (by omega)]
  · intro r' c hrr
    rw [hcr]
    show getCell (deleteRowAt s r) r' c = _
    rw [getCell_deleteRowAt s r r' c hr (by omega), if_neg (by omega)]
  · intro r' c hr' hrr
    rw [hcr]
    show getCell (deleteRowAt s r) r' c = _
    rw [getCell_deleteRowAt s r r' c hr hr', if_pos hrr]

/-- Witness for C7: deleting row 1 of the three-row table succeeds and row 1
then reads as the former row 2 value "b". -/
theorem claim_C7_clearRow_shifts_witness :
    (clearRow demoRows (.pInt 1)).2.1 = true ∧
    ((readRow (clearRow demoRows (.pInt 1)).1 (.pInt 1)).1.getD []).getD 0 .pNone =
      .pStr "b" := by
  have h := claim_C7_clearRow_shifts demoRows 1 (by decide)
  refine ⟨h.1, ?_⟩
  have h2 := h.2.1 1 (by decide)
  exact h2.trans (by rfl)

/-- C1: for every table whose header row contains both lookup headers and
whose row-key column contains the searched value, `update_cell_by_lookup`
writes the new value to the cell at the row the direct composition
`rowIndexForValue(columnIndexForHeader(row_header), row_value)` returns and
the column `columnIndexForHeader(col_header)` returns; and the four steps run
in that order, each short-circuiting with its failure message when its lookup
fails.  The table is assumed to fit in the column range openpyxl can
letter-convert, and the new value must be a writable cell scalar. -/
theorem claim_C1_updateCellByLookup_pipeline (s : Sheet)
    (rowHeader rowValue colHeader newValue : PyVal)
    (hwidth : maxCol s ≤ maxColLetterIdx) (hnv : writable newValue = true) :
    (∀ rc tc r, (getColumnIndexByHeader s rowHeader).1 = some rc →
      (getColumnIndexByHeader s colHeader).1 = some tc →
      (getRowIndexByValue s (.pInt (rc : Int)) rowValue).1 = some r →
      (updateCellByLookup s rowHeader rowValue colHeader newValue).1 =
          setCell s r tc newValue ∧
        (updateCellByLookup s rowHeader rowValue colHeader newValue).2.1 = true ∧
        getCell (updateCellByLookup s rowHeader rowValue colHeader newValue).1 r tc =
          newValue) ∧
    ((getColumnIndexByHeader s rowHeader).1 = none →
      updateCellByLookup s rowHeader rowValue colHeader newValue =
        (s, false, "Could not find column with header '" ++ pyStr rowHeader ++ "': " ++
          (getColumnIndexByHeader s rowHeader).2)) ∧
    (∀ rc, (getColumnIndexByHeader s rowHeader).1 = some rc →
      (getColumnIndexByHeader s colHeader).1 = none →
      updateCellByLookup s rowHeader rowValue colHeader newValue =
        (s, false, "Could not find column with header '" ++ pyStr colHeader ++ "': " ++
          (getColumnIndexByHeader s colHeader).2)) ∧
    (∀ rc tc, (getColumnIndexByHeader s rowHeader).1 = some rc →
      (getColumnIndexByHeader s colHeader).1 = some tc →
      (getRowIndexByValue s (.pInt (rc : Int)) rowValue).1 = none →
      updateCellByLookup s rowHeader rowValue colHeader newValue =
        (s, false, "Could not find row with value '" ++ pyStr rowValue ++
          "' in column '" ++ pyStr rowHeader ++ "': " ++
          (getRowIndexByValue s (.pInt (rc : Int)) rowValue).2)) := by
  refine ⟨?_, ?_, ?_, ?_⟩
  · intro rc tc r h1 h2 h3
    have hrcb := getColumnIndexByHeader_bounds s rowHeader rc h1
    have htcb := getColumnIndexByHeader_bounds s colHeader tc h2
    have hrb := getRowIndexByValue_bounds s (.pInt (rc : Int)) rowValue rc r
      (getColIndex_posInt rc (by omega)) (by omega) h3
    have hw := writeCell_posInt s r tc newValue (by omega) (by omega) (by omega) hnv
    have hu : updateCellByLookup s rowHeader rowValue colHeader newValue =
        (setCell s r tc newValue, true,
          "Successfully updated cell at row " ++ toString r ++ ", column " ++
            colLetter tc ++ " (identified by '" ++ pyStr rowHeader ++ "=" ++
            pyStr rowValue ++ "' and '" ++ pyStr colHeader ++ "') with value '" ++
            pyStr newValue ++ "'") := by
      unfold updateCellByLookup
      split
      · rename_i heq
        rw [heq] at h1
        cases h1
      · rename_i rc0 heq
        rw [heq] at h1
        injection h1 with he
        subst he
        rw [if_neg (by omega)]
        split
        · rename_i heq2
          rw [heq2] at h2
          cases h2
        · rename_i tc0 heq2
          rw [heq2] at h2
          injection h2 with he2
          subst he2
          rw [if_neg (by omega)]
          split
          · rename_i heq3
            rw [heq3] at h3
            cases h3
          · rename_i r0 heq3
            rw [heq3] at h3
            injection h3 with he3
            subst he3
            rw [if_neg (by omega)]
            rw [hw]
            rw [if_neg (by simp)]
    refine ⟨by rw [hu], by rw [hu], ?_⟩
    rw [hu]
    exact getCell_setCell_self s r tc newValue (by omega) (by omega)
  · intro h1
    unfold updateCellByLookup
    split
    · rfl
    · rename_i rc0 heq
      rw [heq] at h1
      cases h1
  · intro rc h1 h2
    have hrcb := getColumnIndexByHeader_bounds s rowHeader rc h1
    unfold updateCellByLookup
    split
    · rename_i heq
      rw [heq] at h1
      cases h1
    · rename_i rc0 heq
      rw [heq] at h1
      injection h1 with he
      subst he
      rw [if_neg (by omega)]
      split
      · rfl
      · rename_i tc0 heq2
        rw [heq2] at h2
        cases h2
  · intro rc tc h1 h2 h3
    have hrcb := getColumnIndexByHeader_bounds s rowHeader rc h1
    have htcb := getColumnIndexByHeader_bounds s colHeader tc h2
    unfold updateCellByLookup
    split
    · rename_i heq
      rw [heq] at h1
      cases h1
    · rename_i rc0 heq
      rw [heq] at h1
      injection h1 with he
      subst he
      rw [if_neg (by omega)]
      split
      · rename_i heq2
        rw [heq2] at h2
        cases h2
      · rename_i tc0 heq2
        rw [heq2] at h2
        injection h2 with he2
        subst he2
        rw [if_neg (by omega)]
        split
        · rfl
        · rename_i r0 heq3
          rw [heq3] at h3
          cases h3

/-- Witness for C1 at the demo table: looking up row `Name=Alpha` and column
`Status` writes `Done` into cell (2,2). -/
theorem claim_C1_updateCellByLookup_pipeline_witness :
    (updateCellByLookup demoTable (.pStr "Name") (.pStr "Alpha") (.pStr "Status")
      (.pStr "Done")).2.1 = true ∧
    getCell (updateCellByLookup demoTable (.pStr "Name") (.pStr "Alpha") (.pStr "Status")
      (.pStr "Done")).1 2 2 = .pStr "Done" := by
  have h := (claim_C1_updateCellByLookup_pipeline demoTable (.pStr "Name") (.pStr "Alpha")
    (.pStr "Status") (.pStr "Done") (by decide) (by decide)).1 1 2 2
    (by rfl) (by rfl) (by rfl)
  exact ⟨h.2.1, h.2.2⟩

/-- C8: processing an `excel_write_cell` envelope whose `row_index` is -1
returns reward -1 with the validation error message and leaves every cell of
the table unchanged: the extra validation rejects the request before any
store mutation. -/
theorem claim_C8_writeCell_negative_row_rejected (s : Sheet) (ps : Params)
    (h1 : lookupParam ps "row_index" = some (.pInt (-1)))
    (h2 : (lookupParam ps "col_index").isSome = true)
    (h3 : (lookupParam ps "text").isSome = true) :
    processJsonOperation s (.parsed ⟨some (.pStr "excel_write_cell"), some ps⟩) =
      (s, -1, "Error: Invalid row_index: -1. Must be positive integer") ∧
    ∀ r c, getCell (processJsonOperation s
        (.parsed ⟨some (.pStr "excel_write_cell"), some ps⟩)).1 r c = getCell s r c := by
  have hgp : getP ps "row_index" = PyVal.pInt (-1) := by
    unfold getP
    rw [h1]
    rfl
  have hhas : hasParams ps ["row_index", "col_index", "text"] = true := by
    simp only [hasParams, List.all_cons, List.all_nil]
    rw [h1]
    simp [h2, h3]
  have hdisp : dispatch s (.pStr "excel_write_cell") ps =
      HOut.early ("Invalid row_index: " ++ pyStr (PyVal.pInt (-1)) ++
        ". Must be positive integer") := by
    show hWriteCell s ps = _
    unfold hWriteCell
    split
    · rename_i h
      rw [hhas] at h
      simp at h
    · split
      · rw [hgp]
      · rename_i h
        rw [hgp] at h
        exact absurd rfl h
  have hfull : processJsonOperation s (.parsed ⟨some (.pStr "excel_write_cell"), some ps⟩) =
      (s, -1, "Error: Invalid row_index: -1. Must be positive integer") := by
    show (match dispatch s (.pStr "excel_write_cell") ps with
      | HOut.early m => (s, -1, "Error: " ++ m)
      | HOut.raised m => (s, -1, "Error: " ++ m)
      | HOut.done s1 ok m => packageResult s1 ok m) = _
    rw [hdisp]
    rfl
  exact ⟨hfull, fun r c => by rw [hfull]⟩

/-- Witness for C8: the concrete envelope with `row_index` -1 on the demo
table is rejected with reward -1 and the table is unchanged at (1,1). -/
theorem claim_C8_writeCell_negative_row_rejected_witness :
    processJsonOperation demoTable (.parsed ⟨some (.pStr "excel_write_cell"),
      some [("row_index", .pInt (-1)), ("col_index", .pInt 1), ("text", .pStr "x")]⟩) =
      (demoTable, -1, "Error: Invalid row_index: -1. Must be positive integer") ∧
    getCell (processJsonOperation demoTable (.parsed ⟨some (.pStr "excel_write_cell"),
      some [("row_index", .pInt (-1)), ("col_index", .pInt 1), ("text", .pStr "x")]⟩)).1 1 1 =
      getCell demoTable 1 1 := by
  have h := claim_C8_writeCell_negative_row_rejected demoTable
    [("row_index", .pInt (-1)), ("col_index", .pInt 1), ("text", .pStr "x")]
    (by rfl) (by rfl) (by rfl)
  exact ⟨h.1, h.2 1 1⟩

/-- C9: processing an `excel_read_cell` envelope addressing an in-range cell
that has never been written (its value is absent) returns reward 1, not -1 —
the dispatcher's success test also accepts the `"Value ..."` message produced
for an absent value — the sheet is unchanged and the feedback reports the
value as 'None'. -/
theorem claim_C9_readCell_absent_success (s : Sheet) (r c : Nat)
    (hr : 1 ≤ r) (hc : 1 ≤ c) (hcb : c ≤ maxColLetterIdx)
    (habs : getCell s r c = .pNone) :
    (processJsonOperation s (.parsed ⟨some (.pStr "excel_read_cell"),
      some [("row_index", .pInt (r : Int)), ("col_index", .pInt (c : Int))]⟩)).1 = s ∧
    (processJsonOperation s (.parsed ⟨some (.pStr "excel_read_cell"),
      some [("row_index", .pInt (r : Int)), ("col_index", .pInt (c : Int))]⟩)).2.1 = 1 ∧
    ∃ a b, (processJsonOperation s (.parsed ⟨some (.pStr "excel_read_cell"),
      some [("row_index", .pInt (r : Int)), ("col_index", .pInt (c : Int))]⟩)).2.2 =
      a ++ "'None'" ++ b := by
  have hdisp : dispatch s (.pStr "excel_read_cell")
      [("row_index", PyVal.pInt (r : Int)), ("col_index", PyVal.pInt (c : Int))] =
      HOut.done s true ("Success: Read value '" ++ pyStr PyVal.pNone ++ "' from " ++
        fmtCellRef (pyStr (PyVal.pInt (r : Int))) (colLetter c)) := by
    show hReadCell s
      [("row_index", PyVal.pInt (r : Int)), ("col_index", PyVal.pInt (c : Int))] = _
    unfold hReadCell
    rw [show getP [("row_index", PyVal.pInt (r : Int)), ("col_index", PyVal.pInt (c : Int))]
        "row_index" = PyVal.pInt (r : Int) from rfl]
    rw [show getP [("row_index", PyVal.pInt (r : Int)), ("col_index", PyVal.pInt (c : Int))]
        "col_index" = PyVal.pInt (c : Int) from rfl]
    rw [readCell_posInt s r c hr hc hcb, habs]
    split
    · rename_i h
      rw [show (!hasParams [("row_index", PyVal.pInt (r : Int)),
          ("col_index", PyVal.pInt (c : Int))] ["row_index", "col_index"]) = false from rfl] at h
      exact absurd h Bool.false_ne_true
    · split
      · split
        · rename_i c' heq
          rw [getColIndex_posInt c hc] at heq
          injection heq with he
          subst he
          rw [if_neg (by omega)]
        · rename_i heq
          rw [getColIndex_posInt c hc] at heq
          cases heq
      · rename_i h
        exact absurd rfl h
  have hfull : processJsonOperation s (.parsed ⟨some (.pStr "excel_read_cell"),
      some [("row_index", .pInt (r : Int)), ("col_index", .pInt (c : Int))]⟩) =
      (s, 1, "Success: Read value '" ++ pyStr PyVal.pNone ++ "' from " ++
        fmtCellRef (pyStr (PyVal.pInt (r : Int))) (colLetter c)) := by
    show (match dispatch s (.pStr "excel_read_cell")
        [("row_index", PyVal.pInt (r : Int)), ("col_index", PyVal.pInt (c : Int))] with
      | HOut.early m => (s, -1, "Error: " ++ m)
      | HOut.raised m => (s, -1, "Error: " ++ m)
      | HOut.done s1 ok m => packageResult s1 ok m) = _
    rw [hdisp]
    rfl
  refine ⟨by rw [hfull], by rw [hfull],
    "Success: Read value ",
    " from " ++ fmtCellRef (pyStr (PyVal.pInt (r : Int))) (colLetter c), ?_⟩
  rw [hfull]
  rfl

/-- Witness for C9: reading the never-written cell (3,1) of the demo table
returns reward 1 with a feedback reporting 'None', and the table unchanged. -/
theorem claim_C9_readCell_absent_success_witness :
    (processJsonOperation demoTable (.parsed ⟨some (.pStr "excel_read_cell"),
      some [("row_index", .pInt ((3 : Nat) : Int)), ("col_index", .pInt ((1 : Nat) : Int))]⟩)).1 =
      demoTable ∧
    (processJsonOperation demoTable (.parsed ⟨some (.pStr "excel_read_cell"),
      some [("row_index", .pInt ((3 : Nat) : Int)),
        ("col_index", .pInt ((1 : Nat) : Int))]⟩)).2.1 = 1 := by
  have h := claim_C9_readCell_absent_success demoTable 3 1 (by decide) (by decide)
    (by decide) (by rfl)
  exact ⟨h.1, h.2.1⟩

/-- C10: processing an `excel_write_cell` envelope whose `row_index` is the
sentinel string "next_available" returns reward -1 and leaves the table
unchanged — the extra `write_cell` validation admits only positive integers
and positive digit-strings — while `excel_add_row` accepts the sentinel and
succeeds with reward 1. -/
theorem claim_C10_writeCell_sentinel_rejected (s : Sheet) (ps : Params)
    (h1 : lookupParam ps "row_index" = some (.pStr "next_available"))
    (h2 : (lookupParam ps "col_index").isSome = true)
    (h3 : (lookupParam ps "text").isSome = true) :
    processJsonOperation s (.parsed ⟨some (.pStr "excel_write_cell"), some ps⟩) =
      (s, -1, "Error: Invalid row_index: next_available. Must be positive integer") ∧
    (∀ r c, getCell (processJsonOperation s
        (.parsed ⟨some (.pStr "excel_write_cell"), some ps⟩)).1 r c = getCell s r c) ∧
    writeCellRowOk (.pStr "next_available") = false ∧
    addRowIndexOk (.pStr "next_available") = true ∧
    (∀ text : PyVal, writable text = true →
      (processJsonOperation s (.parsed ⟨some (.pStr "excel_add_row"),
        some [("row_index", .pStr "next_available"), ("text", text)]⟩)).2.1 = 1) := by
  have hgp : getP ps "row_index" = PyVal.pStr "next_available" := by
    unfold getP
    rw [h1]
    rfl
  have hhas : hasParams ps ["row_index", "col_index", "text"] = true := by
    simp only [hasParams, List.all_cons, List.all_nil]
    rw [h1]
    simp [h2, h3]
  have hdisp : dispatch s (.pStr "excel_write_cell") ps =
      HOut.early ("Invalid row_index: " ++ pyStr (PyVal.pStr "next_available") ++
        ". Must be positive integer") := by
    show hWriteCell s ps = _
    unfold hWriteCell
    split
    · rename_i h
      rw [hhas] at h
      simp at h
    · split
      · rw [hgp]
      · rename_i h
        rw [hgp] at h
        exact absurd rfl h
  have hfull : processJsonOperation s (.parsed ⟨some (.pStr "excel_write_cell"), some ps⟩) =
      (s, -1, "Error: Invalid row_index: next_available. Must be positive integer") := by
    show (match dispatch s (.pStr "excel_write_cell") ps with
      | HOut.early m => (s, -1, "Error: " ++ m)
      | HOut.raised m => (s, -1, "Error: " ++ m)
      | HOut.done s1 ok m => packageResult s1 ok m) = _
    rw [hdisp]
    rfl
  refine ⟨hfull, fun r c => by rw [hfull], rfl, rfl, ?_⟩
  intro text htext
  have haddr : addRow s (.pStr "next_available") text =
      (setCell (insertRowAt s (actualRowIndex s (.pStr "next_available")))
        (actualRowIndex s (.pStr "next_available")) 1 text, true,
       "New row inserted at position " ++
         toString (actualRowIndex s (.pStr "next_available")) ++ ". Text '" ++
         pyStr text ++ "' added to " ++
         fmtCellRef (toString (actualRowIndex s (.pStr "next_available"))) "A") := by
    unfold addRow
    rw [if_neg (by
      rw [show validateRowIndex (.pStr "next_available") = true from rfl]
      decide)]
    rw [if_neg (by rw [htext]; decide)]
  show (packageResult (addRow s (.pStr "next_available") text).1
    (addRow s (.pStr "next_available") text).2.1
    (addRow s (.pStr "next_available") text).2.2).2.1 = 1
  rw [haddr]
  rfl

/-- Witness for C10: on the demo table the sentinel `excel_write_cell`
envelope is rejected leaving (1,1) unchanged, while the sentinel
`excel_add_row` envelope is rewarded 1. -/
theorem claim_C10_writeCell_sentinel_rejected_witness :
    processJsonOperation demoTable (.parsed ⟨some (.pStr "excel_write_cell"),
      some [("row_index", .pStr "next_available"), ("col_index", .pInt 2),
        ("text", .pStr "x")]⟩) =
      (demoTable, -1, "Error: Invalid row_index: next_available. Must be positive integer") ∧
    (processJsonOperation demoTable (.parsed ⟨some (.pStr "excel_add_row"),
      some [("row_index", .pStr "next_available"), ("text", .pStr "hello")]⟩)).2.1 = 1 := by
  have h := claim_C10_writeCell_sentinel_rejected demoTable
    [("row_index", .pStr "next_available"), ("col_index", .pInt 2), ("text", .pStr "x")]
    (by rfl) (by rfl) (by rfl)
  exact ⟨h.1, h.2.2.2.2 (.pStr "hello") (by rfl)⟩
